/-
  Verification development for the Yosoi selector-discovery pipeline.

  Shallow embedding of the core components:
    - ContentAnalyzer        (src/yosoi/core/fetcher/base.py)
    - bot-detection checks   (src/yosoi/core/fetcher/base.py)
    - SimpleFetcher          (src/yosoi/core/fetcher/simple.py)
    - SmartFetcher waterfall (src/yosoi/core/fetcher/smart.py)
    - SelectorVerifier       (src/yosoi/core/verification/verifier.py)
    - Pipeline orchestrator  (src/yosoi/core/pipeline.py)
    - LLMTracker accounting  (src/src/yosoi/tracker.py)

  External effectful collaborators (HTTP transport, BeautifulSoup's CSS
  engine, the LLM oracle, the HTML cleaner, storage I/O) are modelled as
  explicit inputs; all control flow and data manipulation is translated
  from the Python source.  Wall-clock float timestamps are modelled as
  rationals.
-/
import Mathlib

set_option maxRecDepth 80000

namespace Yosoi

/-! ### Generic list/string helpers (executable models of Python string ops) -/

/-- Whether `needle` occurs as a contiguous substring of `hay`
(Python `needle in hay`). -/
def containsList (needle : List Char) : List Char → Bool
  | [] => needle.isEmpty
  | c :: rest => needle.isPrefixOf (c :: rest) || containsList needle rest

/-- Find the first occurrence of `needle`; return the part before it and the
part after it (Python `s.find` / leftmost regex match). -/
def splitFirst (needle : List Char) : List Char → Option (List Char × List Char)
  | [] => if needle.isEmpty then some ([], []) else none
  | c :: rest =>
    if needle.isPrefixOf (c :: rest) then some ([], (c :: rest).drop needle.length)
    else
      match splitFirst needle rest with
      | some (pre, post) => some (c :: pre, post)
      | none => none

theorem splitFirst_append (needle s pre post : List Char)
    (h : splitFirst needle s = some (pre, post)) :
    s = pre ++ needle ++ post := by
  induction s generalizing pre post with
  | nil =>
    simp only [splitFirst] at h
    by_cases hn : needle.isEmpty
    · simp only [hn, if_true, Option.some.injEq, Prod.mk.injEq] at h
      rcases h with ⟨h1, h2⟩
      rw [List.isEmpty_iff] at hn
      simp [hn, ← h1, ← h2]
    · simp [hn] at h
  | cons c rest ih =>
    simp only [splitFirst] at h
    by_cases hp : needle.isPrefixOf (c :: rest)
    · simp only [hp, if_true, Option.some.injEq, Prod.mk.injEq] at h
      rcases h with ⟨h1, h2⟩
      rcases List.isPrefixOf_iff_prefix.mp hp with ⟨t, ht⟩
      rw [← h1, ← h2, ← ht]
      simp [List.drop_left]
    · rw [if_neg hp] at h
      cases hmatch : splitFirst needle rest with
      | none =>
        rw [hmatch] at h
        simp at h
      | some pr =>
        rw [hmatch] at h
        simp only [Option.some.injEq, Prod.mk.injEq] at h
        obtain ⟨h1, h2⟩ := h
        subst h1
        subst h2
        simp [ih pr.1 pr.2 (by rw [hmatch])]

/-- Length bound used for termination of repeated tag-block removal. -/
theorem splitFirst_post_length (needle s pre post : List Char)
    (hne : needle ≠ [])
    (h : splitFirst needle s = some (pre, post)) :
    post.length < s.length := by
  have := splitFirst_append needle s pre post h
  subst this
  have : 0 < needle.length := List.length_pos.mpr hne
  simp [List.length_append]
  omega

/-- Python `str.lower()` restricted to ASCII case mapping. -/
def lowerList (l : List Char) : List Char := l.map Char.toLower

/-- Python whitespace characters stripped by `str.strip()`. -/
def isPyWhitespace (c : Char) : Bool :=
  c = ' ' || c = '\t' || c = '\n' || c = '\x0d' || c = Char.ofNat 11 || c = Char.ofNat 12

/-- Python `str.strip()`: drop whitespace at both ends. -/
def pyStrip (l : List Char) : List Char :=
  ((l.dropWhile isPyWhitespace).reverse.dropWhile isPyWhitespace).reverse

instance {ε α : Type} [DecidableEq ε] [DecidableEq α] :
    DecidableEq (Except ε α) := fun x y =>
  match x, y with
  | .ok a, .ok b =>
    if h : a = b then isTrue (congrArg Except.ok h)
    else isFalse (fun hc => h (by injection hc))
  | .error a, .error b =>
    if h : a = b then isTrue (congrArg Except.error h)
    else isFalse (fun hc => h (by injection hc))
  | .ok _, .error _ => isFalse (fun hc => by injection hc)
  | .error _, .ok _ => isFalse (fun hc => by injection hc)

/-- Worker for `removeTagBlocks`; the fuel argument only makes the recursion
structural.  Each deleted block consumes at least one character
(`splitFirst_post_length`), so a fuel of `s.length` never runs out and the
fuel never alters the result. -/
def removeTagBlocksAux (openTag closeTag : List Char) : Nat → List Char → List Char
  | 0, s => s
  | fuel + 1, s =>
    match splitFirst openTag s with
    | none => s
    | some (pre, afterOpen) =>
      match splitFirst ['>'] afterOpen with
      | none => s
      | some (_, afterGt) =>
        match splitFirst closeTag afterGt with
        | none => s
        | some (_, afterClose) =>
          pre ++ removeTagBlocksAux openTag closeTag fuel afterClose

/-- Model of `re.sub(r'<TAG[^>]*>.*?</TAG>', '', s, flags=re.DOTALL)`:
repeatedly delete the leftmost block that starts with `openTag`, runs through
the first `>` after it, and ends at the first `closeTag` after that `>`
(non-greedy `.*?`); scanning resumes after each deleted block. -/
def removeTagBlocks (openTag closeTag : List Char) (s : List Char) : List Char :=
  removeTagBlocksAux openTag closeTag s.length s

namespace ContentAnalyzer

/-- Metadata about fetched content (`src/yosoi/models/results.py`,
`ContentMetadata`). -/
structure ContentMetadata where
  is_rss : Bool := false
  requires_js : Bool := false
  content_type : String := "html"
  js_framework : Option String := none
  content_length : Nat := 0
deriving DecidableEq

/-- Models `ContentAnalyzer._detect_rss`: scan the first 500 characters of the
lowercased text for feed indicators. -/
def detect_rss (html_lower : List Char) : Bool :=
  let rss_indicators : List (List Char) :=
    ["<?xml".data, "<rss".data, "<feed".data, "<channel>".data,
      "xmlns=\"http://www.w3.org/2005/atom\"".data,
      "xmlns=\"http://purl.org/rss/1.0/\"".data]
  let start := html_lower.take 500
  rss_indicators.any (fun indicator => containsList indicator start)

/-- Framework indicator table from `ContentAnalyzer._detect_javascript_heavy`,
in Python dict insertion order. -/
def frameworks : List (String × List (List Char)) :=
  [("react", ["id=\"root\"".data, "id=\"app\"".data, "data-reactroot".data,
      "react-root".data, "__react".data]),
    ("vue", ["id=\"app\"".data, "v-if=".data, "v-for=".data, "vue.js".data,
      "__vue".data]),
    ("angular", ["ng-app".data, "ng-controller".data, "angular.js".data,
      "ng-version".data]),
    ("next", ["__next".data, "_next/static".data, "next.js".data]),
    ("svelte", ["svelte".data, "__svelte".data])]

/-- First framework whose indicator list matches (the `break` in the Python
loop keeps the first hit). -/
def detected_framework (html_lower : List Char) : Option String :=
  (frameworks.find? (fun fw => fw.2.any (fun ind => containsList ind html_lower))).map
    (fun fw => fw.1)

/-- Group 1 of `re.search(r'<body[^>]*>(.*?)</body>', html_lower, re.DOTALL)`:
content between the first complete `<body …>` tag and the first `</body>`
after it. -/
def body_content (html_lower : List Char) : Option (List Char) := do
  let (_, afterOpen) ← splitFirst "<body".data html_lower
  let (_, afterGt) ← splitFirst ['>'] afterOpen
  let (content, _) ← splitFirst "</body>".data afterGt
  pure content

/-- Body content with `<script>…</script>` and `<style>…</style>` blocks
removed and surrounding whitespace stripped; `minimal_content` is true when
fewer than 100 characters remain (`false` when there is no body match). -/
def minimal_content (html_lower : List Char) : Bool :=
  match body_content html_lower with
  | some bc =>
    let bc := removeTagBlocks "<script".data "</script>".data bc
    let bc := removeTagBlocks "<style".data "</style>".data bc
    (pyStrip bc).length < 100
  | none => false

/-- Check that `<noscript>` is present together with an explicit enable-JavaScript warning
anywhere in the document. -/
def has_noscript_warning (html_lower : List Char) : Bool :=
  containsList "<noscript>".data html_lower &&
    (containsList "enable javascript".data html_lower ||
      containsList "requires javascript".data html_lower)

/-- Models `ContentAnalyzer._detect_javascript_heavy`: returns
`(requires_js, framework)`. -/
def detect_javascript_heavy (html_lower : List Char) : Bool × Option String :=
  let fw := detected_framework html_lower
  let minimal := minimal_content html_lower
  let noscript := has_noscript_warning html_lower
  ((fw.isSome && minimal) || noscript, fw)

/-- Models `ContentAnalyzer.analyze`: feed check first (returning early), then
script-heavy detection. -/
def analyze (html : String) : ContentMetadata :=
  let html_lower := lowerList html.data
  if detect_rss html_lower then
    { is_rss := true, content_type := "rss", content_length := html.length }
  else
    let js := detect_javascript_heavy html_lower
    { is_rss := false, requires_js := js.1, js_framework := js.2,
      content_length := html.length }

end ContentAnalyzer

export ContentAnalyzer (ContentMetadata)

/-! ### Fetch results and bot detection (`src/yosoi/models/results.py`,
`src/yosoi/core/fetcher/base.py`, `src/yosoi/utils/exceptions.py`) -/

/-- Models `BotDetectionError(url, status_code, indicators)`. -/
structure BotDetectionError where
  url : String
  status_code : Nat
  indicators : List String
deriving DecidableEq

/-- Models `FetchResult` (the float `fetch_time` field carries no logic touched by
any claim and is elided). -/
structure FetchResult where
  url : String
  html : Option String := none
  status_code : Option Nat := none
  is_blocked : Bool := false
  block_reason : Option String := none
  metadata : ContentMetadata := {}
deriving DecidableEq

namespace FetchResult

/-- Models `FetchResult.success`: HTML present and not blocked. -/
def success (r : FetchResult) : Bool := r.html.isSome && !r.is_blocked

/-- Models `FetchResult.is_rss`. -/
def is_rss (r : FetchResult) : Bool := r.metadata.is_rss

/-- Models `FetchResult.requires_js`. -/
def requires_js (r : FetchResult) : Bool := r.metadata.requires_js

/-- Models `FetchResult.should_use_heuristics`: skip the AI when RSS or
JavaScript-heavy. -/
def should_use_heuristics (r : FetchResult) : Bool := r.is_rss || r.requires_js

end FetchResult

/-- Block-page marker table used for `status == 200` responses
(`HTMLFetcher._check_for_bot_detection`), in dict order. -/
def strict_indicators : List (String × String) :=
  [("challenge-form", "Cloudflare challenge"),
    ("cf-captcha", "Cloudflare CAPTCHA"),
    ("access denied</title>", "Access denied page"),
    ("rate limit exceeded", "Rate limit"),
    ("please verify you are human", "Human verification"),
    ("enable javascript to continue", "JavaScript block")]

/-- Broader marker table for other 4xx/5xx responses. -/
def block_indicators : List (String × String) :=
  [("captcha", "CAPTCHA required"),
    ("access denied", "Access denied"),
    ("cloudflare", "Cloudflare protection"),
    ("rate limit", "Rate limited"),
    ("too many requests", "Too many requests"),
    ("forbidden", "Forbidden")]

/-- Models `HTMLFetcher._check_for_bot_detection(html, status_code)` →
`(is_blocked, indicators)`. -/
def check_for_bot_detection (html : String) (status_code : Nat) :
    Bool × List String :=
  if html.length < 100 then (true, ["HTML too short"])
  else if status_code = 403 ∨ status_code = 429 ∨ status_code = 503 then
    (true, ["HTTP " ++ toString status_code])
  else if status_code = 200 then
    let html_check := lowerList (html.data.take 2000)
    let found := strict_indicators.filterMap fun p =>
      if containsList p.1.data html_check then some p.2 else none
    (!found.isEmpty, found)
  else if 400 ≤ status_code then
    let html_check := lowerList (html.data.take 2000)
    let found := block_indicators.filterMap fun p =>
      if containsList p.1.data html_check then some p.2 else none
    (!found.isEmpty, found)
  else (false, [])

/-! ### SimpleFetcher (`src/yosoi/core/fetcher/simple.py`) -/

/-- Outcome of the underlying `requests` GET: either an HTTP response
(status code and decoded text) or a raised transport error. -/
inductive SimpleResponse where
  | ok (status : Nat) (body : String)
  | netError (msg : String)
deriving DecidableEq

/-- Models `SimpleFetcher.fetch` given the HTTP layer's outcome: short or empty
bodies produce a blocked `FetchResult`; bot detection raises
`BotDetectionError` (the `Except.error` case); otherwise the body is
analyzed and returned.  Transport errors are swallowed into an unblocked,
HTML-less result. -/
def simple_fetch (url : String) (resp : SimpleResponse) :
    Except BotDetectionError FetchResult :=
  match resp with
  | .netError msg =>
    .ok { url := url, block_reason := some msg }
  | .ok status body =>
    if body.length < 100 then
      .ok { url := url, status_code := some status, is_blocked := true,
            block_reason := some "Response too short or empty" }
    else
      let check := check_for_bot_detection body status
      if check.1 then
        .error ⟨url, status, check.2⟩
      else
        .ok { url := url, html := some body, status_code := some status,
              metadata := ContentAnalyzer.analyze body }

/-! ### SmartFetcher waterfall (`src/yosoi/core/fetcher/smart.py`) -/

/-- Outcome of `PlaywrightFetcher.fetch`: a result, a raised
`BotDetectionError`, or any other raised exception. -/
inductive PlaywrightOutcome where
  | result (r : FetchResult)
  | botDetected (e : BotDetectionError)
  | otherError (msg : String)
deriving DecidableEq

/-- Whether `SmartFetcher.fetch` falls through to the Playwright tier: the
simple tier raised `BotDetectionError`, or returned an unsuccessful result. -/
def smart_escalates (simple : Except BotDetectionError FetchResult) : Bool :=
  match simple with
  | .ok r => !r.success
  | .error _ => true

/-- Attempt 2 of `SmartFetcher.fetch`: Playwright's result is returned as-is,
its `BotDetectionError` is re-raised, and any other error becomes an
unblocked, HTML-less `FetchResult`. -/
def smart_attempt2 (url : String) (pw : PlaywrightOutcome) :
    Except BotDetectionError FetchResult :=
  match pw with
  | .result r => .ok r
  | .botDetected e => .error e
  | .otherError msg =>
    .ok { url := url, block_reason := some ("All methods failed: " ++ msg) }

/-- Models `SmartFetcher.fetch`: try the simple tier; on `BotDetectionError` or an
unsuccessful result, escalate to Playwright. -/
def smart_fetch (url : String) (simple : Except BotDetectionError FetchResult)
    (pw : PlaywrightOutcome) : Except BotDetectionError FetchResult :=
  match simple with
  | .ok r => if r.success then .ok r else smart_attempt2 url pw
  | .error _ => smart_attempt2 url pw

/-! ### Request-delay rate limiter (`SimpleFetcher._apply_request_delay`).

Wall-clock instants (`time.time()`, `time.sleep`) are modelled as rationals;
`now` is the monotone clock and `lastRequestTime` mirrors
`self.last_request_time`.  `draw` stands for the value of
`random.uniform(min_delay, max_delay)`, which satisfies
`min_delay ≤ draw ≤ max_delay` whenever `min_delay ≤ max_delay`. -/

structure RateLimiterState where
  lastRequestTime : ℚ
  now : ℚ
deriving DecidableEq

/-- Models `_apply_request_delay`: if a positive minimum delay is configured and less
than `draw` seconds have elapsed since the last request, sleep the difference;
then stamp `last_request_time` with the current time. -/
def apply_request_delay (min_delay draw : ℚ) (s : RateLimiterState) :
    RateLimiterState :=
  if 0 < min_delay then
    let elapsed := s.now - s.lastRequestTime
    if elapsed < draw then
      let woken := s.now + (draw - elapsed)
      { lastRequestTime := woken, now := woken }
    else
      { lastRequestTime := s.now, now := s.now }
  else
    { lastRequestTime := s.now, now := s.now }

/-- Run a sequence of `SimpleFetcher.fetch` calls through one fetcher
instance: before each call the clock has advanced by `gap ≥ 0` (time spent in
the previous request and between calls), then `_apply_request_delay` runs with
the drawn delay, and the HTTP request is issued at the stamped instant.
Returns the list of request-issue instants. -/
def request_times (min_delay : ℚ) : RateLimiterState → List (ℚ × ℚ) → List ℚ
  | _, [] => []
  | s, (gap, draw) :: rest =>
    let s' := apply_request_delay min_delay draw { s with now := s.now + gap }
    s'.lastRequestTime :: request_times min_delay s' rest

/-! ### SelectorVerifier (`src/yosoi/core/verification/verifier.py`,
models in `src/yosoi/models/selectors.py` and `src/yosoi/models/results.py`).

`BeautifulSoup(html, 'lxml')` followed by `soup.select(selector)` is the
external CSS engine; it is modelled as a function `select` from selector
strings to either a syntax-error message (`soupsieve` raising) or the number
of matched elements. -/

/-- The CSS engine for one parsed document. -/
def SelectEngine := String → Except String Nat

/-- Models `FieldSelectors` (`src/yosoi/models/selectors.py`): `primary` is
required, `fallback`/`tertiary` may be `None`. -/
structure FieldSelectors where
  primary : String
  fallback : Option String := none
  tertiary : Option String := none
deriving DecidableEq

/-- Models `FieldSelectors.as_tuples`: `(level, selector)` pairs in tier order. -/
def FieldSelectors.as_tuples (f : FieldSelectors) :
    List (String × Option String) :=
  [("primary", some f.primary), ("fallback", f.fallback),
    ("tertiary", f.tertiary)]

/-- Models the pydantic `ValidationError` raised when `SelectorFailure` is
constructed with `selector=None` — its `selector` field is a required `str`
(`src/yosoi/models/results.py`). -/
inductive ValidationError where
  | selectorNone
deriving DecidableEq

/-- Models `SelectorFailure`: `level`, `selector` and `reason` are required
strings, so the verifier can only construct one for a tier whose selector is
present — a `None` selector makes the constructor raise `ValidationError`. -/
structure SelectorFailure where
  level : String
  selector : String
  reason : String
deriving DecidableEq

/-- Models `FieldVerificationResult` with `status ∈ {"verified", "failed"}`. -/
structure FieldVerificationResult where
  field_name : String
  status : String
  working_level : Option String := none
  selector : Option String := none
  failed_selectors : List SelectorFailure := []
deriving DecidableEq

/-- Models `VerificationResult` (`results` keeps Python dict insertion order). -/
structure VerificationResult where
  total_fields : Nat
  verified_count : Nat
  results : List (String × FieldVerificationResult)
deriving DecidableEq

/-- Models `VerificationResult.success`: at least one field verified. -/
def VerificationResult.success (r : VerificationResult) : Bool :=
  decide (1 ≤ r.verified_count)

namespace SelectorVerifier

/-- Models `SelectorVerifier._test_selector`: `None`, empty and `'NA'` selectors are
skipped as `na_selector`; a selector succeeds when it matches at least one
element; a `soupsieve` syntax error is reported as
`'invalid_syntax: <message>'`. -/
def test_selector (select : SelectEngine) (selector : Option String) :
    Bool × String :=
  match selector with
  | none => (false, "na_selector")
  | some s =>
    if s = "" ∨ s = "NA" then (false, "na_selector")
    else
      match select s with
      | .error e => (false, "invalid_syntax: " ++ e)
      | .ok n => if 0 < n then (true, "found") else (false, "no_elements_found")

/-- Tier loop of `SelectorVerifier._verify_field`: first working tier wins and
carries the failures collected so far; otherwise the field is failed with all
its failures.  Recording a failed tier whose selector is `None` raises
pydantic `ValidationError` (`SelectorFailure.selector` is a required `str`),
so later tiers are not reached in that case. -/
def verify_tiers (select : SelectEngine) (field_name : String) :
    List (String × Option String) → List SelectorFailure →
    Except ValidationError FieldVerificationResult
  | [], failed =>
    .ok { field_name := field_name, status := "failed",
          failed_selectors := failed }
  | (level, selector) :: rest, failed =>
    let t := test_selector select selector
    if t.1 then
      .ok { field_name := field_name, status := "verified",
            working_level := some level, selector := selector,
            failed_selectors := failed }
    else
      match selector with
      | some s =>
        verify_tiers select field_name rest (failed ++ [⟨level, s, t.2⟩])
      | none => .error .selectorNone

/-- Models `SelectorVerifier._verify_field` on a `FieldSelectors` model. -/
def verify_field (select : SelectEngine) (field_name : String)
    (field_data : FieldSelectors) :
    Except ValidationError FieldVerificationResult :=
  verify_tiers select field_name field_data.as_tuples []

/-- Field loop of `SelectorVerifier.verify`: fields are verified in input
order, and a pydantic error raised while verifying one field propagates,
abandoning the remaining fields. -/
def verify_results (select : SelectEngine) :
    List (String × FieldSelectors) →
    Except ValidationError (List (String × FieldVerificationResult))
  | [] => .ok []
  | p :: rest =>
    match verify_field select p.1 p.2 with
    | .error e => .error e
    | .ok r =>
      match verify_results select rest with
      | .error e => .error e
      | .ok others => .ok ((p.1, r) :: others)

/-- Models `SelectorVerifier.verify`: verify every field and count the
verified ones; a pydantic `ValidationError` from any field propagates out of
`verify` uncaught. -/
def verify (select : SelectEngine)
    (selectors : List (String × FieldSelectors)) :
    Except ValidationError VerificationResult :=
  match verify_results select selectors with
  | .error e => .error e
  | .ok results =>
    .ok { total_fields := selectors.length,
          verified_count :=
            (results.filter (fun p => p.2.status = "verified")).length,
          results := results }

/-- The dict comprehension
`{name: selectors[name] for name in result.results if … == 'verified'}` used
by `Pipeline._verify` and `verify_selectors_with_html`. -/
def filter_verified (selectors : List (String × FieldSelectors))
    (r : VerificationResult) : List (String × FieldSelectors) :=
  (r.results.filter (fun p => p.2.status = "verified")).filterMap fun p =>
    (selectors.lookup p.1).map fun v => (p.1, v)

/-- Models `SelectorVerifier.verify_selectors_with_html`: `None` when no field
verified, otherwise the verified subset of the input map; a pydantic error
from `verify` propagates. -/
def verify_selectors_with_html (select : SelectEngine)
    (selectors : List (String × FieldSelectors)) :
    Except ValidationError (Option (List (String × FieldSelectors))) :=
  match verify select selectors with
  | .error e => .error e
  | .ok r =>
    .ok (if r.success then some (filter_verified selectors r) else none)

end SelectorVerifier

/-! ### Pipeline orchestrator (`src/yosoi/core/pipeline.py`).

`Pipeline.process_url` sequences components whose effects are modelled as
explicit inputs: the selector storage (`cached`), the successive outcomes of
`fetcher.fetch` (`fetches`), `HTMLCleaner.clean_html` (`clean`), the parsed
document's CSS engine per cleaned HTML (`select`), the LLM discovery per
attempt (`discover`, where `[]` models a falsy result or a raised exception),
and `ContentExtractor` (`extract`, where `[]` models a falsy result).
The trace records each external call the orchestrator makes, in order.
URL normalization and the fetcher-type lookup (pure construction) are
elided; the URL and its domain are fixed throughout one `process_url` run. -/

abbrev SelMap := List (String × FieldSelectors)

abbrev ExtractedContent := List (String × String)

/-- One outcome of `fetcher.fetch`: a returned result, a raised
`BotDetectionError`, or another raised exception. -/
inductive FetchOutcome where
  | ok (r : FetchResult)
  | bot (e : BotDetectionError)
  | exn (msg : String)
deriving DecidableEq

/-- How a `SimpleFetcher` outcome feeds the pipeline. -/
def FetchOutcome.ofSimple : Except BotDetectionError FetchResult → FetchOutcome
  | .ok r => .ok r
  | .error e => .bot e

/-- External calls made by the orchestrator, in program order. -/
inductive Event where
  | fetchCall
  | oracleCall
  | verifyCall (html : String) (selectors : SelMap)
  | extractCall (html : String) (selectors : SelMap)
  | saveSelectors (selectors : SelMap)
  | saveContent
  | recordUrl (used_llm : Bool)
deriving DecidableEq

/-- Per-domain usage counters (`src/src/yosoi/tracker.py`). -/
structure TrackerStats where
  llm_calls : Nat := 0
  url_count : Nat := 0
deriving DecidableEq

/-- Models `LLMTracker.record_url` restricted to the processed URL's domain: the URL
count always increments, the LLM count only when `used_llm`. -/
def TrackerStats.record_url (t : TrackerStats) (used_llm : Bool) :
    TrackerStats :=
  { llm_calls := t.llm_calls + (if used_llm then 1 else 0),
    url_count := t.url_count + 1 }

/-- External collaborators of one `process_url` run. -/
structure PipelineEnv where
  cached : Option SelMap
  fetches : List FetchOutcome
  clean : String → String
  select : String → SelectEngine
  discover : Nat → SelMap
  extract : String → SelMap → ExtractedContent

/-- Pop the next `fetcher.fetch` outcome; an exhausted script behaves like a
raised transport error. -/
def next_fetch : List FetchOutcome → FetchOutcome × List FetchOutcome
  | [] => (.exn "no response", [])
  | o :: rest => (o, rest)

/-- Models `Pipeline._fetch`: up to `max_retries` attempts (tenacity
`stop_after_attempt`); every exception — bot detection included — is retried,
a returned result is accepted only when successful; exhausting attempts
yields `none`. -/
def pipeline_fetch : Nat → List FetchOutcome →
    Option (FetchResult × String) × List FetchOutcome × List Event
  | 0, fetches => (none, fetches, [])
  | n + 1, fetches =>
    let (o, rest) := next_fetch fetches
    match o with
    | .ok r =>
      match r.html, r.is_blocked with
      | some h, false => (some (r, h), rest, [.fetchCall])
      | _, _ =>
        let (res, fs, tr) := pipeline_fetch n rest
        (res, fs, .fetchCall :: tr)
    | .bot _ =>
      let (res, fs, tr) := pipeline_fetch n rest
      (res, fs, .fetchCall :: tr)
    | .exn _ =>
      let (res, fs, tr) := pipeline_fetch n rest
      (res, fs, .fetchCall :: tr)

/-- Attempt loop of `Pipeline._discover`, numbering attempts from `k`. -/
def pipeline_discover_go (discover : Nat → SelMap) :
    Nat → Nat → (SelMap × Bool) × List Event
  | _, 0 => (([], false), [])
  | k, n + 1 =>
    let s := discover k
    if s.isEmpty then
      let (res, tr) := pipeline_discover_go discover (k + 1) n
      (res, .oracleCall :: tr)
    else ((s, true), [.oracleCall])

/-- Models `Pipeline._discover`: AI discovery with up to `max_retries` attempts.
A non-empty result returns `(selectors, used_llm := true)`; exhausting the
attempts returns `(None, False)` — there is no heuristic fallback in this
function despite its docstring. -/
def pipeline_discover (discover : Nat → SelMap) (max_retries : Nat) :
    (SelMap × Bool) × List Event :=
  pipeline_discover_go discover 1 max_retries

/-- Models `Pipeline._verify`: skip returns the input unchanged without consulting
the verifier; otherwise no verified field means `None`, else the verified
subset.  A pydantic `ValidationError` from the verifier is not caught here
(nor anywhere in `process_url`), so it propagates. -/
def pipeline_verify (env : PipelineEnv) (html : String) (selectors : SelMap)
    (skip_verification : Bool) :
    Except ValidationError (Option SelMap) × List Event :=
  if skip_verification then (.ok (some selectors), [])
  else
    match SelectorVerifier.verify (env.select html) selectors with
    | .error e => (.error e, [.verifyCall html selectors])
    | .ok r =>
      if r.success then
        (.ok (some (SelectorVerifier.filter_verified selectors r)),
          [.verifyCall html selectors])
      else (.ok none, [.verifyCall html selectors])

/-- Result of `Pipeline._cached_selectors`: a boolean return or a re-raised
`BotDetectionError`. -/
inductive CachedOutcome where
  | ret (b : Bool)
  | raise (e : BotDetectionError)
deriving DecidableEq

/-- Models `Pipeline._extract_with_cached_selectors` (the `skip_verification` cache
path): fetch, clean, extract with the cached selectors as-is — no
verification — and record the URL with `used_llm=False`.  Every failure,
bot detection included, is caught and still recorded. -/
def extract_with_cached (env : PipelineEnv) (fetches : List FetchOutcome)
    (t : TrackerStats) (cachedSels : SelMap) :
    List FetchOutcome × TrackerStats × List Event :=
  let (o, rest) := next_fetch fetches
  match o with
  | .ok r =>
    match r.html, r.is_blocked with
    | some h, false =>
      let ch := env.clean h
      let ext := env.extract ch cachedSels
      (rest, t.record_url false,
        [.fetchCall, .extractCall ch cachedSels] ++
          (if ext.isEmpty then [] else [.saveContent]) ++ [.recordUrl false])
    | _, _ => (rest, t.record_url false, [.fetchCall, .recordUrl false])
  | .bot _ => (rest, t.record_url false, [.fetchCall, .recordUrl false])
  | .exn _ => (rest, t.record_url false, [.fetchCall, .recordUrl false])

/-- Models `Pipeline._verify_and_extract_cached`: fetch fresh HTML, verify the
cached selectors against it, extract with the verified subset on success;
a failed fetch or a non-bot error still counts as a cached success, a failed
verification returns `False` (forcing re-discovery), and `BotDetectionError`
is re-raised.  A pydantic `ValidationError` raised by the verifier is caught
by the generic handler here: the URL is recorded and `True` returned. -/
def verify_and_extract_cached (env : PipelineEnv)
    (fetches : List FetchOutcome) (t : TrackerStats) (cachedSels : SelMap) :
    CachedOutcome × List FetchOutcome × TrackerStats × List Event :=
  let (o, rest) := next_fetch fetches
  match o with
  | .bot e => (.raise e, rest, t, [.fetchCall])
  | .exn _ => (.ret true, rest, t.record_url false,
      [.fetchCall, .recordUrl false])
  | .ok r =>
    match r.html, r.is_blocked with
    | some h, false =>
      let ch := env.clean h
      match SelectorVerifier.verify_selectors_with_html (env.select ch)
          cachedSels with
      | .error _ =>
        (.ret true, rest, t.record_url false,
          [.fetchCall, .verifyCall ch cachedSels, .recordUrl false])
      | .ok (some verified) =>
        if verified.isEmpty then
          (.ret false, rest, t, [.fetchCall, .verifyCall ch cachedSels])
        else
          let ext := env.extract ch verified
          (.ret true, rest, t.record_url false,
            [.fetchCall, .verifyCall ch cachedSels,
              .extractCall ch verified] ++
              (if ext.isEmpty then [] else [.saveContent]) ++
              [.recordUrl false])
      | .ok none =>
        (.ret false, rest, t, [.fetchCall, .verifyCall ch cachedSels])
    | _, _ => (.ret true, rest, t.record_url false,
        [.fetchCall, .recordUrl false])

/-- Models `Pipeline._cached_selectors`: nothing cached (or an empty cache record)
falls through to discovery; with `skip_verification` the cached selectors are
used directly, otherwise they are re-verified first. -/
def cached_selectors_step (env : PipelineEnv) (skip_verification : Bool)
    (fetches : List FetchOutcome) (t : TrackerStats) :
    CachedOutcome × List FetchOutcome × TrackerStats × List Event :=
  match env.cached with
  | none => (.ret false, fetches, t, [])
  | some cs =>
    if cs.isEmpty then (.ret false, fetches, t, [])
    else if skip_verification then
      let (fs, t', tr) := extract_with_cached env fetches t cs
      (.ret true, fs, t', tr)
    else verify_and_extract_cached env fetches t cs

/-- An exception escaping `process_url`: a `BotDetectionError` re-raised by
the cached path, or a pydantic `ValidationError` raised by the verifier on
the main path (nothing in `process_url` catches it). -/
inductive PipelineExn where
  | bot (e : BotDetectionError)
  | validation (e : ValidationError)
deriving DecidableEq

/-- Result of one `process_url` run: the returned boolean (or the propagated
exception), the tracker stats for the URL's domain afterwards, and the trace
of external calls. -/
structure ProcessOutput where
  result : Except PipelineExn Bool
  tracker : TrackerStats
  trace : List Event
deriving DecidableEq

/-- Main (non-cached) path of `Pipeline.process_url`: fetch → clean →
discover → verify → extract → save & track.  Any step's failure returns
`False` without touching the tracker; only a completed run calls
`tracker.record_url`. -/
def main_path (env : PipelineEnv) (skip_verification : Bool)
    (max_fetch_retries max_discovery_retries : Nat)
    (fs1 : List FetchOutcome) (t1 : TrackerStats) : ProcessOutput :=
  match pipeline_fetch max_fetch_retries fs1 with
  | (none, _, tr2) => ⟨.ok false, t1, tr2⟩
  | (some (_, h), _, tr2) =>
    let ch := env.clean h
    if ch.isEmpty then ⟨.ok false, t1, tr2⟩
    else
      match pipeline_discover env.discover max_discovery_retries with
      | ((sels, used_llm), tr3) =>
        if sels.isEmpty then ⟨.ok false, t1, tr2 ++ tr3⟩
        else
          match pipeline_verify env ch sels skip_verification with
          | (.error e, tr4) =>
            ⟨.error (.validation e), t1, tr2 ++ tr3 ++ tr4⟩
          | (.ok none, tr4) => ⟨.ok false, t1, tr2 ++ tr3 ++ tr4⟩
          | (.ok (some v), tr4) =>
            if v.isEmpty then ⟨.ok false, t1, tr2 ++ tr3 ++ tr4⟩
            else
              let ext := env.extract ch v
              ⟨.ok true, t1.record_url used_llm,
                tr2 ++ tr3 ++ tr4 ++
                  [.extractCall ch v, .saveSelectors v] ++
                  (if ext.isEmpty then [] else [.saveContent]) ++
                  [.recordUrl used_llm]⟩

/-- Models `Pipeline.process_url`: cached-selector path first (unless `force`), then
the main discovery path. -/
def process_url (env : PipelineEnv) (force skip_verification : Bool)
    (max_fetch_retries max_discovery_retries : Nat) (t0 : TrackerStats) :
    ProcessOutput :=
  let step1 :=
    if force then (CachedOutcome.ret false, env.fetches, t0, ([] : List Event))
    else cached_selectors_step env skip_verification env.fetches t0
  match step1 with
  | (.raise e, _, t1, tr1) => ⟨.error (.bot e), t1, tr1⟩
  | (.ret true, _, t1, tr1) => ⟨.ok true, t1, tr1⟩
  | (.ret false, fs1, t1, tr1) =>
    let m := main_path env skip_verification max_fetch_retries
      max_discovery_retries fs1 t1
    ⟨m.result, m.tracker, tr1 ++ m.trace⟩

/-! ## Claims -/

/-- C5: a fetch whose HTTP response has status 403, 429 or 503 and a body of
at least 100 characters makes the simple tier raise `BotDetectionError` with
indicator `HTTP <code>`; under the waterfall strategy this triggers the
browser-tier attempt, and a browser-tier `BotDetectionError` propagates to
the caller. -/
theorem c5_status_block_and_waterfall (url : String) (status : Nat)
    (body : String) (pw : PlaywrightOutcome)
    (hstatus : status = 403 ∨ status = 429 ∨ status = 503)
    (hlen : 100 ≤ body.length) :
    simple_fetch url (.ok status body) =
      .error ⟨url, status, ["HTTP " ++ toString status]⟩ ∧
    smart_escalates (simple_fetch url (.ok status body)) = true ∧
    smart_fetch url (simple_fetch url (.ok status body)) pw =
      smart_attempt2 url pw ∧
    ∀ e : BotDetectionError, smart_attempt2 url (.botDetected e) = .error e := by
  have hnot : ¬ body.length < 100 := by omega
  have hcheck : check_for_bot_detection body status =
      (true, ["HTTP " ++ toString status]) := by
    unfold check_for_bot_detection
    rw [if_neg hnot, if_pos hstatus]
  have hsf : simple_fetch url (.ok status body) =
      .error ⟨url, status, ["HTTP " ++ toString status]⟩ := by
    simp only [simple_fetch]
    rw [if_neg hnot]
    simp [hcheck]
  exact ⟨hsf, by rw [hsf]; rfl, by rw [hsf]; rfl, fun e => rfl⟩

/-- Scenario D instance of the C5 theorem: a 403 whose body asks to "please
verify you are human". -/
def bodyD : String :=
  "<html><body>Access check: please verify you are human before continuing. " ++
    "This page is protected against automated access.</body></html>"

/-- Witness for C5 at a concrete 403 response. -/
theorem c5_status_block_and_waterfall_witness :
    simple_fetch "https://news.example.com" (.ok 403 bodyD) =
      .error ⟨"https://news.example.com", 403, ["HTTP " ++ toString 403]⟩ ∧
    smart_escalates (simple_fetch "https://news.example.com" (.ok 403 bodyD)) =
      true ∧
    smart_fetch "https://news.example.com"
      (simple_fetch "https://news.example.com" (.ok 403 bodyD))
      (.botDetected ⟨"https://news.example.com", 403, ["HTTP 403"]⟩) =
      smart_attempt2 "https://news.example.com"
        (.botDetected ⟨"https://news.example.com", 403, ["HTTP 403"]⟩) ∧
    ∀ e : BotDetectionError,
      smart_attempt2 "https://news.example.com" (.botDetected e) = .error e :=
  c5_status_block_and_waterfall "https://news.example.com" 403 bodyD
    (.botDetected ⟨"https://news.example.com", 403, ["HTTP 403"]⟩)
    (Or.inl rfl) (by decide)

/-- C10: the waterfall escalates to the browser tier exactly when the simple
tier's outcome is not a successful result (blocked flag set, HTML missing, or
`BotDetectionError` raised); and a non-bot browser-tier error yields an
unblocked, HTML-less `FetchResult` rather than raising. -/
theorem c10_waterfall_escalation_and_soft_failure (url msg : String)
    (simple : Except BotDetectionError FetchResult) (pw : PlaywrightOutcome) :
    (smart_escalates simple = true ↔ ∀ r, simple = .ok r → r.success = false) ∧
    (smart_escalates simple = true →
      smart_fetch url simple pw = smart_attempt2 url pw) ∧
    smart_attempt2 url (.otherError msg) =
      .ok { url := url, html := none, status_code := none, is_blocked := false,
            block_reason := some ("All methods failed: " ++ msg),
            metadata := {} } := by
  refine ⟨?_, ?_, rfl⟩
  · cases simple with
    | ok r =>
      simp only [smart_escalates, Bool.not_eq_true']
      constructor
      · intro h r' hr'
        injection hr' with h2
        rw [← h2]
        exact h
      · intro h
        exact h r rfl
    | error e =>
      simp only [smart_escalates]
      constructor
      · intro _ r' hr'
        exact absurd hr' (by simp)
      · intro _
        trivial
  · cases simple with
    | ok r =>
      intro h
      simp only [smart_escalates, Bool.not_eq_true'] at h
      simp [smart_fetch, h]
    | error e =>
      intro _
      rfl

/-- Unsuccessful simple-tier result used by the C10 witness. -/
def blockedSimpleResult : FetchResult :=
  { url := "https://example.com", is_blocked := true,
    block_reason := some "Response too short or empty" }

/-- Witness for C10: an unsuccessful (blocked) simple-tier result escalates,
and a browser-tier crash produces the soft-failure result. -/
theorem c10_waterfall_escalation_and_soft_failure_witness :
    (smart_escalates (.ok blockedSimpleResult) = true ↔
      ∀ r, (Except.ok blockedSimpleResult :
              Except BotDetectionError FetchResult) = .ok r →
        r.success = false) ∧
    (smart_escalates (.ok blockedSimpleResult) = true →
      smart_fetch "https://example.com" (.ok blockedSimpleResult)
        (.otherError "playwright crashed") =
      smart_attempt2 "https://example.com" (.otherError "playwright crashed")) ∧
    smart_attempt2 "https://example.com" (.otherError "playwright crashed") =
      .ok { url := "https://example.com", html := none, status_code := none,
            is_blocked := false,
            block_reason := some ("All methods failed: " ++ "playwright crashed"),
            metadata := {} } :=
  c10_waterfall_escalation_and_soft_failure "https://example.com"
    "playwright crashed" (.ok blockedSimpleResult)
    (.otherError "playwright crashed")

/-- C6 (amended): tiers are tested in the fixed order primary → fallback →
tertiary (`FieldSelectors.as_tuples`); the first structurally matching tier
is recorded as working together with the earlier failures, and the remaining
tiers are not evaluated — the result does not depend on them; in particular
when primary matches, the working tier is always primary.  The tertiary case
additionally requires the fallback tier to be present as a string: recording
a failed `None` tier raises pydantic `ValidationError` instead. -/
theorem c6_tier_precedence (select : SelectEngine) (name p : String)
    (fb tb : Option String) :
    FieldSelectors.as_tuples ⟨p, fb, tb⟩ =
      [("primary", some p), ("fallback", fb), ("tertiary", tb)] ∧
    ((SelectorVerifier.test_selector select (some p)).1 = true →
      ∀ fb2 tb2 : Option String,
        SelectorVerifier.verify_field select name ⟨p, fb2, tb2⟩ =
          .ok { field_name := name, status := "verified",
                working_level := some "primary", selector := some p,
                failed_selectors := [] }) ∧
    ((SelectorVerifier.test_selector select (some p)).1 = false →
      (SelectorVerifier.test_selector select fb).1 = true →
      ∀ tb2 : Option String,
        SelectorVerifier.verify_field select name ⟨p, fb, tb2⟩ =
          .ok { field_name := name, status := "verified",
                working_level := some "fallback", selector := fb,
                failed_selectors :=
                  [⟨"primary", p,
                    (SelectorVerifier.test_selector select (some p)).2⟩] }) ∧
    (∀ fbs : String, fb = some fbs →
      (SelectorVerifier.test_selector select (some p)).1 = false →
      (SelectorVerifier.test_selector select fb).1 = false →
      (SelectorVerifier.test_selector select tb).1 = true →
      SelectorVerifier.verify_field select name ⟨p, fb, tb⟩ =
        .ok { field_name := name, status := "verified",
              working_level := some "tertiary", selector := tb,
              failed_selectors :=
                [⟨"primary", p,
                  (SelectorVerifier.test_selector select (some p)).2⟩,
                 ⟨"fallback", fbs,
                  (SelectorVerifier.test_selector select fb).2⟩] }) := by
  refine ⟨rfl, ?_, ?_, ?_⟩
  · intro h fb2 tb2
    simp [SelectorVerifier.verify_field, FieldSelectors.as_tuples,
      SelectorVerifier.verify_tiers, h]
  · intro h1 h2 tb2
    simp [SelectorVerifier.verify_field, FieldSelectors.as_tuples,
      SelectorVerifier.verify_tiers, h1, h2]
  · intro fbs hfb h1 h2 h3
    subst hfb
    simp [SelectorVerifier.verify_field, FieldSelectors.as_tuples,
      SelectorVerifier.verify_tiers, h1, h2, h3]

/-- CSS engine where both the primary and the fallback selector match. -/
def selBoth : SelectEngine := fun s =>
  if s = "h1.t" ∨ s = "h1" then Except.ok 1 else Except.ok 0

/-- Witness for C6: primary and fallback both match, yet the recorded working
tier is primary with no failures. -/
theorem c6_tier_precedence_witness :
    SelectorVerifier.verify_field selBoth "headline" ⟨"h1.t", some "h1", none⟩ =
      .ok { field_name := "headline", status := "verified",
            working_level := some "primary", selector := some "h1.t",
            failed_selectors := [] } ∧
    (SelectorVerifier.test_selector selBoth (some "h1")).1 = true :=
  ⟨(c6_tier_precedence selBoth "headline" "h1.t" (some "h1") none).2.1
      (by decide) (some "h1") none,
    by decide⟩

/-- C6 counterexample to the claim as stated: the tertiary selector
structurally matches, but because the failing fallback tier is `None` the
verifier raises pydantic `ValidationError` while recording that failure
(`SelectorFailure.selector` is a required `str`), so the matching tier is
never recorded as working. -/
theorem c6_none_tier_counterexample :
    (SelectorVerifier.test_selector selBoth (some "h1")).1 = true ∧
    SelectorVerifier.verify_field selBoth "headline"
        ⟨"h1.missing", none, some "h1"⟩ =
      .error ValidationError.selectorNone := by
  refine ⟨by decide, by decide⟩

/-- Any reason recorded for a failed tier is the NA sentinel, a no-match, or
an `invalid_syntax:`-prefixed parser message. -/
theorem test_selector_fail_reason (select : SelectEngine) (sel : Option String)
    (h : (SelectorVerifier.test_selector select sel).1 = false) :
    (SelectorVerifier.test_selector select sel).2 = "na_selector" ∨
    (SelectorVerifier.test_selector select sel).2 = "no_elements_found" ∨
    ∃ msg, (SelectorVerifier.test_selector select sel).2 =
      "invalid_syntax: " ++ msg := by
  cases sel with
  | none => left; rfl
  | some s =>
    by_cases hna : s = "" ∨ s = "NA"
    · left
      simp [SelectorVerifier.test_selector, hna]
    · cases hsel : select s with
      | error e =>
        right; right
        exact ⟨e, by simp [SelectorVerifier.test_selector, hna, hsel]⟩
      | ok n =>
        by_cases hn : 0 < n
        · exfalso
          simp [SelectorVerifier.test_selector, hna, hsel, hn] at h
        · right; left
          simp [SelectorVerifier.test_selector, hna, hsel, hn]

/-- The tier loop terminates normally whenever every tier is present. -/
theorem verify_tiers_total (select : SelectEngine) (name : String) :
    ∀ (tiers : List (String × Option String)) (acc : List SelectorFailure),
    (∀ q ∈ tiers, q.2.isSome) →
    ∃ fr, SelectorVerifier.verify_tiers select name tiers acc = .ok fr := by
  intro tiers
  induction tiers with
  | nil =>
    intro acc _
    exact ⟨_, rfl⟩
  | cons hd tl ih =>
    intro acc hsome
    rcases hd with ⟨level, sel⟩
    obtain ⟨s, hs⟩ := Option.isSome_iff_exists.mp
      (hsome (level, sel) (List.mem_cons_self _ _))
    subst hs
    by_cases ht : (SelectorVerifier.test_selector select (some s)).1 = true
    · refine ⟨{ field_name := name, status := "verified",
                working_level := some level, selector := some s,
                failed_selectors := acc }, ?_⟩
      simp [SelectorVerifier.verify_tiers, ht]
    · rw [Bool.not_eq_true] at ht
      obtain ⟨fr, hfr⟩ := ih
        (acc ++ [⟨level, s,
          (SelectorVerifier.test_selector select (some s)).2⟩])
        (fun q hq => hsome q (List.mem_cons_of_mem _ hq))
      exact ⟨fr, by simp [SelectorVerifier.verify_tiers, ht, hfr]⟩

/-- Failure reasons accumulated by the tier loop all take one of the three
recorded forms (given that the accumulator does). -/
theorem verify_tiers_failed_reasons (select : SelectEngine) (name : String) :
    ∀ (tiers : List (String × Option String)) (acc : List SelectorFailure),
    (∀ f ∈ acc, f.reason = "na_selector" ∨ f.reason = "no_elements_found" ∨
      ∃ msg, f.reason = "invalid_syntax: " ++ msg) →
    ∀ fr, SelectorVerifier.verify_tiers select name tiers acc = .ok fr →
    ∀ f ∈ fr.failed_selectors,
      f.reason = "na_selector" ∨ f.reason = "no_elements_found" ∨
        ∃ msg, f.reason = "invalid_syntax: " ++ msg := by
  intro tiers
  induction tiers with
  | nil =>
    intro acc hacc fr hfr f hf
    simp only [SelectorVerifier.verify_tiers, Except.ok.injEq] at hfr
    rw [← hfr] at hf
    exact hacc f hf
  | cons hd tl ih =>
    intro acc hacc fr hfr f hf
    rcases hd with ⟨level, sel⟩
    by_cases ht : (SelectorVerifier.test_selector select sel).1 = true
    · simp only [SelectorVerifier.verify_tiers, ht, if_true,
        Except.ok.injEq] at hfr
      rw [← hfr] at hf
      exact hacc f hf
    · rw [Bool.not_eq_true] at ht
      simp only [SelectorVerifier.verify_tiers, ht, Bool.false_eq_true,
        if_false] at hfr
      cases sel with
      | none => simp at hfr
      | some str =>
        refine ih (acc ++ [⟨level, str,
          (SelectorVerifier.test_selector select (some str)).2⟩]) ?_ fr hfr f hf
        intro g hg
        rcases List.mem_append.mp hg with hg1 | hg2
        · exact hacc g hg1
        · have hgeq : g = ⟨level, str,
              (SelectorVerifier.test_selector select (some str)).2⟩ := by
            simpa using hg2
          rw [hgeq]
          exact test_selector_fail_reason select (some str) ht

/-- The field loop succeeds field by field in input order when every field
does, producing one entry per field with keys preserved and, under distinct
keys, lookup returning each field's own result. -/
theorem verify_results_ok (select : SelectEngine) :
    ∀ (sels : List (String × FieldSelectors)),
    (∀ p ∈ sels, ∃ fr,
      SelectorVerifier.verify_field select p.1 p.2 = .ok fr) →
    (sels.map Prod.fst).Nodup →
    ∃ results, SelectorVerifier.verify_results select sels = .ok results ∧
      results.map Prod.fst = sels.map Prod.fst ∧
      (∀ p ∈ sels, ∃ fr,
        SelectorVerifier.verify_field select p.1 p.2 = .ok fr ∧
        results.lookup p.1 = some fr) ∧
      (∀ q ∈ results, ∃ p ∈ sels, p.1 = q.1 ∧
        SelectorVerifier.verify_field select p.1 p.2 = .ok q.2) := by
  intro sels
  induction sels with
  | nil =>
    intro _ _
    exact ⟨[], rfl, rfl, by simp, by simp⟩
  | cons hd tl ih =>
    intro hall hnodup
    obtain ⟨fr0, hfr0⟩ := hall hd (List.mem_cons_self _ _)
    have hnodup2 : (tl.map Prod.fst).Nodup := by
      simp only [List.map_cons, List.nodup_cons] at hnodup
      exact hnodup.2
    obtain ⟨results, hres, hkeys, hlk, hmemdir⟩ :=
      ih (fun p hp => hall p (List.mem_cons_of_mem _ hp)) hnodup2
    refine ⟨(hd.1, fr0) :: results, ?_, ?_, ?_, ?_⟩
    · simp only [SelectorVerifier.verify_results, hfr0, hres]
    · simp [hkeys]
    · intro p hp
      rcases List.mem_cons.mp hp with h1 | h2
      · rw [h1]
        exact ⟨fr0, hfr0, by simp [List.lookup]⟩
      · have hne : p.1 ≠ hd.1 := by
          intro hc
          have : hd.1 ∈ tl.map Prod.fst := by
            rw [← hc]
            exact List.mem_map_of_mem Prod.fst h2
          simp only [List.map_cons, List.nodup_cons] at hnodup
          exact hnodup.1 this
        obtain ⟨fr, hfr, hlkp⟩ := hlk p h2
        have hbeq : (p.1 == hd.1) = false := by simp [hne]
        exact ⟨fr, hfr, by simp only [List.lookup, hbeq, hlkp]⟩
    · intro q hq
      rcases List.mem_cons.mp hq with h1 | h2
      · rw [h1]
        exact ⟨hd, List.mem_cons_self _ _, rfl, hfr0⟩
      · obtain ⟨p, hp, hpq, hpfr⟩ := hmemdir q h2
        exact ⟨p, List.mem_cons_of_mem _ hp, hpq, hpfr⟩

/-- C7 (amended): for any CSS engine and candidate map with distinct field
names whose fallback and tertiary tiers are all present as strings (the NA
sentinel included, invalid selector strings included), `verify` returns a
`VerificationResult` without raising: exactly one entry per input field in
order, each computed independently of the other fields; every failed tier's
reason is `na_selector`, `no_elements_found`, or an
`invalid_syntax:`-prefixed message; and `success` holds iff at least one
field verified.  (A failing field carrying an absent `None` tier instead
raises pydantic `ValidationError` — see the counterexample.) -/
theorem c7_verify_total_structure (select : SelectEngine)
    (sels : List (String × FieldSelectors))
    (hkeys : (sels.map Prod.fst).Nodup)
    (htiers : ∀ p ∈ sels, p.2.fallback.isSome ∧ p.2.tertiary.isSome) :
    ∃ r, SelectorVerifier.verify select sels = .ok r ∧
      r.total_fields = sels.length ∧
      r.results.map Prod.fst = sels.map Prod.fst ∧
      (∀ p ∈ sels, ∃ fr,
        SelectorVerifier.verify_field select p.1 p.2 = .ok fr ∧
        r.results.lookup p.1 = some fr) ∧
      (∀ q ∈ r.results, ∀ f ∈ q.2.failed_selectors,
        f.reason = "na_selector" ∨ f.reason = "no_elements_found" ∨
          ∃ msg, f.reason = "invalid_syntax: " ++ msg) ∧
      (r.success = true ↔ ∃ q ∈ r.results, q.2.status = "verified") := by
  have hfieldok : ∀ p ∈ sels, ∃ fr,
      SelectorVerifier.verify_field select p.1 p.2 = .ok fr := by
    intro p hp
    obtain ⟨h1, h2⟩ := htiers p hp
    refine verify_tiers_total select p.1 p.2.as_tuples [] ?_
    intro q hq
    simp only [FieldSelectors.as_tuples, List.mem_cons, List.mem_singleton,
      List.not_mem_nil] at hq
    rcases hq with hq | hq | hq
    · rw [hq]; rfl
    · rw [hq]; exact h1
    · simp only [or_false] at hq
      rw [hq]; exact h2
  obtain ⟨results, hres, hkeyseq, hlk, hmemdir⟩ :=
    verify_results_ok select sels hfieldok hkeys
  refine ⟨{ total_fields := sels.length,
            verified_count := (results.filter
              (fun p => p.2.status = "verified")).length,
            results := results }, ?_, rfl, hkeyseq, hlk, ?_, ?_⟩
  · simp only [SelectorVerifier.verify, hres]
  · intro q hq f hf
    obtain ⟨p, hp, hpq, hpfr⟩ := hmemdir q hq
    exact verify_tiers_failed_reasons select p.1 p.2.as_tuples [] (by simp)
      q.2 hpfr f hf
  · simp only [VerificationResult.success, decide_eq_true_eq]
    rw [Nat.one_le_iff_ne_zero]
    rw [Ne, List.length_eq_zero, List.filter_eq_nil_iff]
    constructor
    · intro h
      by_contra hc
      push_neg at hc
      exact h fun q hq => by
        have := hc q hq
        simp [this]
    · intro ⟨q, hq, hqs⟩ hall
      have := hall q hq
      simp [hqs] at this

/-- CSS engine for the C7 instances: one matching selector, one syntactically
invalid selector (the engine reports the parser message), everything else
matches nothing. -/
def selC7 : SelectEngine := fun s =>
  if s = "h1[" then Except.error "Malformed attribute selector"
  else if s = "h1.t" then Except.ok 1
  else Except.ok 0

/-- Witness for C7 (amended) on a concrete candidate map with all tiers
present: a verified field, NA-sentinel tiers, and an invalid selector whose
recorded reason carries the parser message. -/
theorem c7_verify_total_structure_witness :
    ∃ r, SelectorVerifier.verify selC7
        [("headline", ⟨"h1.t", some "h1", some "NA"⟩),
         ("author", ⟨"h1[", some "NA", some "NA"⟩)] = .ok r ∧
      r.total_fields =
        [("headline", (⟨"h1.t", some "h1", some "NA"⟩ : FieldSelectors)),
          ("author", ⟨"h1[", some "NA", some "NA"⟩)].length ∧
      r.results.map Prod.fst =
        [("headline", (⟨"h1.t", some "h1", some "NA"⟩ : FieldSelectors)),
          ("author", ⟨"h1[", some "NA", some "NA"⟩)].map Prod.fst ∧
      (∀ p ∈ [("headline", (⟨"h1.t", some "h1", some "NA"⟩ : FieldSelectors)),
          ("author", ⟨"h1[", some "NA", some "NA"⟩)], ∃ fr,
        SelectorVerifier.verify_field selC7 p.1 p.2 = .ok fr ∧
        r.results.lookup p.1 = some fr) ∧
      (∀ q ∈ r.results, ∀ f ∈ q.2.failed_selectors,
        f.reason = "na_selector" ∨ f.reason = "no_elements_found" ∨
          ∃ msg, f.reason = "invalid_syntax: " ++ msg) ∧
      (r.success = true ↔ ∃ q ∈ r.results, q.2.status = "verified") :=
  c7_verify_total_structure selC7
    [("headline", ⟨"h1.t", some "h1", some "NA"⟩),
      ("author", ⟨"h1[", some "NA", some "NA"⟩)] (by decide) (by decide)

/-- C7 counterexample to the claim as stated: `verify` does not always return
a `VerificationOutcome` — on a candidate map whose failing field has an
absent (`None`) tertiary tier, it raises pydantic `ValidationError`; and
where it does return, an invalid selector's recorded reason is the prefixed
parser message, not an element of
{na_selector, no_elements_found, invalid_syntax}. -/
theorem c7_totality_and_reason_counterexample :
    SelectorVerifier.verify selC7 [("headline", ⟨"h1[", some "NA", none⟩)] =
      .error ValidationError.selectorNone ∧
    SelectorVerifier.verify selC7
        [("headline", ⟨"h1[", some "NA", some "NA"⟩)] =
      .ok { total_fields := 1, verified_count := 0,
            results := [("headline",
              { field_name := "headline", status := "failed",
                working_level := none, selector := none,
                failed_selectors :=
                  [⟨"primary", "h1[",
                    "invalid_syntax: Malformed attribute selector"⟩,
                   ⟨"fallback", "NA", "na_selector"⟩,
                   ⟨"tertiary", "NA", "na_selector"⟩] })] } ∧
    "invalid_syntax: Malformed attribute selector" ≠ "na_selector" ∧
    "invalid_syntax: Malformed attribute selector" ≠ "no_elements_found" ∧
    "invalid_syntax: Malformed attribute selector" ≠ "invalid_syntax" := by
  refine ⟨by decide, by decide, by decide, by decide, by decide⟩

/-- After `_apply_request_delay`, the stamped `last_request_time` coincides
with the clock. -/
theorem apply_request_delay_stamp (m d : ℚ) (s : RateLimiterState) :
    (apply_request_delay m d s).lastRequestTime =
      (apply_request_delay m d s).now := by
  unfold apply_request_delay
  by_cases h1 : 0 < m
  · rw [if_pos h1]
    dsimp only
    by_cases h2 : s.now - s.lastRequestTime < d
    · rw [if_pos h2]
    · rw [if_neg h2]
  · rw [if_neg h1]

/-- Chain invariant for `request_times`, starting from a freshly stamped
state. -/
theorem request_times_chain_aux (min_delay : ℚ) (hmin : 0 < min_delay) :
    ∀ (l : List (ℚ × ℚ)) (s : RateLimiterState),
    s.lastRequestTime = s.now →
    (∀ p ∈ l, 0 ≤ p.1 ∧ min_delay ≤ p.2) →
    List.Chain' (fun a b => a + min_delay ≤ b)
      (s.lastRequestTime :: request_times min_delay s l) := by
  intro l
  induction l with
  | nil =>
    intro s _ _
    simp [request_times]
  | cons hd tl ih =>
    intro s hs hl
    rcases hd with ⟨gap, draw⟩
    obtain ⟨hgap, hdraw⟩ := hl (gap, draw) (List.mem_cons_self _ _)
    simp only [request_times]
    rw [List.chain'_cons]
    constructor
    · unfold apply_request_delay
      rw [if_pos hmin]
      dsimp only
      split
      · dsimp only
        rw [hs]
        linarith
      · rename_i hge
        rw [not_lt] at hge
        dsimp only
        rw [hs] at hge ⊢
        linarith
    · exact ih (apply_request_delay min_delay draw
          { s with now := s.now + gap })
        (apply_request_delay_stamp min_delay draw _)
        (fun p hp => hl p (List.mem_cons_of_mem _ hp))

/-- Per-instance spacing lemma: with a positive configured minimum delay,
successive HTTP requests issued through one `SimpleFetcher` instance are at
least `min_delay` apart.  `draw` models
`random.uniform(min_delay, max_delay)`, which is at least `min_delay`
whenever `min_delay ≤ max_delay`; clock gaps between calls are nonnegative.
This holds only within one instance and does not give the claimed per-domain
spacing, because the orchestrator builds a fresh fetcher per URL. -/
theorem c8_rate_limiter_spacing (min_delay : ℚ) (s0 : RateLimiterState)
    (l : List (ℚ × ℚ)) (hmin : 0 < min_delay)
    (hl : ∀ p ∈ l, 0 ≤ p.1 ∧ min_delay ≤ p.2) :
    List.Chain' (fun a b => a + min_delay ≤ b)
      (request_times min_delay s0 l) := by
  cases l with
  | nil => simp [request_times]
  | cons hd tl =>
    rcases hd with ⟨gap, draw⟩
    simp only [request_times]
    exact request_times_chain_aux min_delay hmin tl
      (apply_request_delay min_delay draw { s0 with now := s0.now + gap })
      (apply_request_delay_stamp min_delay draw _)
      (fun p hp => hl p (List.mem_cons_of_mem _ hp))

/-- Concrete instance of the per-fetcher spacing lemma: three consecutive
fetches with `min_delay = 1`, `max_delay = 2`, drawn delays 2, 1, 2 and
inter-call gaps 0, 1, 5. -/
theorem c8_rate_limiter_spacing_witness :
    List.Chain' (fun a b => a + (1 : ℚ) ≤ b)
      (request_times 1 ⟨0, 0⟩ [(0, 2), (1, 1), (5, 2)]) :=
  c8_rate_limiter_spacing 1 ⟨0, 0⟩ [(0, 2), (1, 1), (5, 2)]
    (by decide) (by decide)

/-- C8: the claimed per-domain spacing fails at the orchestrator level.
`Pipeline.process_url` constructs a fresh fetcher for every URL
(`create_fetcher` at src/yosoi/core/pipeline.py:113), and `SimpleFetcher`
initializes `last_request_time = 0.0`, so the first request of each instance
applies no delay (`elapsed = now - 0` exceeds any draw).  Two consecutive
same-domain URLs processed one second apart, each through its own fresh
limiter state with `min_delay = 2` and a lawful draw of 3, issue their HTTP
requests at instants 100 and 101 — only 1 < `min_delay` apart. -/
theorem c8_fresh_fetcher_no_cross_url_spacing :
    request_times 2 ⟨0, 100⟩ [(0, 3)] = [100] ∧
    request_times 2 ⟨0, 101⟩ [(0, 3)] = [101] ∧
    ¬ ((100 : ℚ) + 2 ≤ 101) := by
  refine ⟨?_, ?_, by norm_num⟩ <;>
    norm_num [request_times, apply_request_delay]

/-- Feed document carrying an explicit enable-JavaScript noscript warning,
used to refute C9 as stated. -/
def rssNoscriptDoc : String :=
  "<?xml version=\"1.0\"?><rss><channel><noscript>Please enable JavaScript " ++
    "to view this feed.</noscript><title>Feed</title></channel></rss>"

/-- C9 counterexample: this document satisfies condition (c) — an explicit
`<noscript>` enable-JavaScript warning — yet the classifier does not flag
`requires_script_rendering`, because the feed check returns first. -/
theorem c9_script_detection_counterexample :
    ContentAnalyzer.has_noscript_warning (lowerList rssNoscriptDoc.data) = true ∧
    (ContentAnalyzer.analyze rssNoscriptDoc).requires_js = false ∧
    (ContentAnalyzer.analyze rssNoscriptDoc).is_rss = true := by
  refine ⟨by decide, by decide, by decide⟩

/-- C9 (amended): the classifier flags `requires_script_rendering` exactly
when the document is not detected as a feed and either (a) a known framework
marker is present and (b) the body content left after removing script/style
blocks and trimming is under 100 characters, or (c) the document carries an
explicit `<noscript>` enable-JavaScript warning. -/
theorem c9_script_detection_characterization (html : String) :
    (ContentAnalyzer.analyze html).requires_js =
      (!ContentAnalyzer.detect_rss (lowerList html.data) &&
        (((ContentAnalyzer.detected_framework (lowerList html.data)).isSome &&
            ContentAnalyzer.minimal_content (lowerList html.data)) ||
          ContentAnalyzer.has_noscript_warning (lowerList html.data))) := by
  unfold ContentAnalyzer.analyze
  by_cases h : ContentAnalyzer.detect_rss (lowerList html.data)
  · rw [if_pos h, h]
    rfl
  · rw [if_neg h]
    rw [Bool.not_eq_true] at h
    rw [h]
    rfl

/-! ### Concrete pipeline runs for C1–C4 -/

/-- An RSS feed body (over 100 characters, no block markers). -/
def feedBody : String :=
  "<?xml version=\"1.0\"?><rss><channel><title>News</title>" ++
    "<item><title>First item with some padding text</title></item></channel></rss>"

/-- The `FetchResult` the simple tier returns for the feed. -/
def feedResultC1 : FetchResult :=
  { url := "https://example.com/feed", html := some feedBody,
    status_code := some 200, metadata := ContentAnalyzer.analyze feedBody }

/-- Simple-tier outcome for the feed URL. -/
def feedFetch : FetchOutcome :=
  .ofSimple (simple_fetch "https://example.com/feed" (.ok 200 feedBody))

/-- A plain article document (over 100 characters, no feed or framework
markers, no block markers). -/
def articleDoc : String :=
  "<html><head><title>Story</title></head><body><h1 class=\"t\">Title</h1>" ++
    "<span class=\"a\">Jane</span><p>Some article text here that is long " ++
    "enough to look real.</p></body></html>"

/-- Simple-tier outcome for the article URL. -/
def articleFetch : FetchOutcome :=
  .ofSimple (simple_fetch "https://example.com/story" (.ok 200 articleDoc))

/-- Selector map returned by the oracle in the concrete runs. -/
def selsDiscovered : SelMap := [("headline", ⟨"h1", none, none⟩)]

/-- Environment for C1: a feed document fetched successfully, oracle
available. -/
def envC1 : PipelineEnv :=
  { cached := none, fetches := [feedFetch], clean := fun h => h,
    select := fun _ _ => Except.ok 1, discover := fun _ => selsDiscovered,
    extract := fun _ _ => [("headline", "News")] }

/-- C1: the classifier flags the document as a feed
(`should_use_heuristics`), yet the orchestrator still calls the oracle,
saves the oracle's selectors and records `used_llm=True` — the oracle skip
and heuristic substitution described by the spec (and by
`Pipeline._discover`'s own docstring) are absent from the code. -/
theorem c1_feed_still_calls_oracle :
    feedFetch = .ok feedResultC1 ∧
    feedResultC1.should_use_heuristics = true ∧
    (ContentAnalyzer.analyze feedBody).is_rss = true ∧
    (process_url envC1 false false 2 3 ⟨0, 0⟩).trace =
      [.fetchCall, .oracleCall, .verifyCall feedBody selsDiscovered,
        .extractCall feedBody selsDiscovered, .saveSelectors selsDiscovered,
        .saveContent, .recordUrl true] ∧
    (process_url envC1 false false 2 3 ⟨0, 0⟩).tracker = ⟨1, 1⟩ ∧
    (process_url envC1 false false 2 3 ⟨0, 0⟩).result = .ok true := by
  refine ⟨by decide, by decide, by decide, by decide, by decide, by decide⟩

/-- Environment for C4: a normal article whose oracle discovery fails on
every attempt. -/
def envC4 : PipelineEnv :=
  { cached := none, fetches := [articleFetch], clean := fun h => h,
    select := fun _ _ => Except.ok 1, discover := fun _ => [],
    extract := fun _ _ => [] }

/-- C4: with `max_discovery_retries = 3` and the oracle failing three
consecutive times, the orchestrator makes exactly three oracle attempts and
then fails the URL: nothing is verified, saved or recorded — the static
heuristic fallback described by the spec (and by the dead
`# All attempts failed - use fallback` comment) never happens. -/
theorem c4_discovery_exhaustion_aborts :
    (process_url envC4 false false 2 3 ⟨0, 0⟩).trace =
      [.fetchCall, .oracleCall, .oracleCall, .oracleCall] ∧
    (process_url envC4 false false 2 3 ⟨0, 0⟩).result = .ok false ∧
    (process_url envC4 false false 2 3 ⟨0, 0⟩).tracker = ⟨0, 0⟩ := by
  refine ⟨by decide, by decide, by decide⟩

/-- Cached selector map for the C2 and C3 runs. -/
def cachedSels : SelMap :=
  [("headline", ⟨"h1", none, none⟩), ("author", ⟨".author", none, none⟩)]

/-- Environment for the C2 counterexample: a cached entry exists and
`skip_verification` is requested. -/
def envC2 : PipelineEnv :=
  { cached := some cachedSels, fetches := [articleFetch], clean := fun h => h,
    select := fun _ _ => Except.ok 1, discover := fun _ => [],
    extract := fun _ _ => [("headline", "Title")] }

/-- C2 counterexample to the claim as stated: with a cached entry and
`skip_verification=True` (force not requested), the orchestrator extracts
with the cached selectors and the trace contains no verification call at
all — the cached selectors are replayed without re-verification. -/
theorem c2_skip_verification_counterexample :
    (process_url envC2 false true 2 3 ⟨0, 0⟩).trace =
      [.fetchCall, .extractCall articleDoc cachedSels, .saveContent,
        .recordUrl false] ∧
    (process_url envC2 false true 2 3 ⟨0, 0⟩).result = .ok true := by
  refine ⟨by decide, by decide⟩

/-- Selector map returned by the oracle in the C3 run: every tier present as
a string (the NA sentinel for the unused ones), so verification fails
cleanly without touching the pydantic error path. -/
def selsDiscoveredC3 : SelMap := [("headline", ⟨"h1", some "NA", some "NA"⟩)]

/-- Environment for the C3 counterexample: fetch and oracle succeed but
verification fails (no selector matches anything). -/
def envC3 : PipelineEnv :=
  { cached := none, fetches := [articleFetch], clean := fun h => h,
    select := fun _ _ => Except.ok 0, discover := fun _ => selsDiscoveredC3,
    extract := fun _ _ => [] }

/-- C3 counterexample to the claim as stated: the URL is processed (fetched,
oracle invoked, verification attempted) and fails softly, yet `url_count` is
not incremented at all — and `llm_calls` is not incremented although the
oracle was actually invoked. -/
theorem c3_failed_url_not_counted_counterexample :
    (process_url envC3 false false 2 3 ⟨0, 0⟩).trace =
      [.fetchCall, .oracleCall, .verifyCall articleDoc selsDiscoveredC3] ∧
    (process_url envC3 false false 2 3 ⟨0, 0⟩).result = .ok false ∧
    (process_url envC3 false false 2 3 ⟨0, 0⟩).tracker = ⟨0, 0⟩ := by
  refine ⟨by decide, by decide, by decide⟩

/-! ### Trace accounting helpers for C2 and C3 -/

/-- Number of `tracker.record_url` calls in a trace. -/
def count_records (tr : List Event) : Nat :=
  (tr.filter fun e => match e with
    | .recordUrl _ => true
    | _ => false).length

/-- Number of `tracker.record_url(used_llm=True)` calls in a trace. -/
def count_llm_records (tr : List Event) : Nat :=
  (tr.filter fun e => match e with
    | .recordUrl b => b
    | _ => false).length

theorem count_records_append (a b : List Event) :
    count_records (a ++ b) = count_records a + count_records b := by
  simp [count_records, List.filter_append]

theorem count_llm_records_append (a b : List Event) :
    count_llm_records (a ++ b) =
      count_llm_records a + count_llm_records b := by
  simp [count_llm_records, List.filter_append]

/-- A trace without record events counts zero records. -/
theorem counts_eq_zero (tr : List Event)
    (h : ∀ e ∈ tr, ∀ b : Bool, e ≠ Event.recordUrl b) :
    count_records tr = 0 ∧ count_llm_records tr = 0 := by
  constructor
  · rw [count_records, List.length_eq_zero, List.filter_eq_nil_iff]
    intro e he
    cases e with
    | recordUrl b => exact absurd rfl (h _ he b)
    | fetchCall => simp
    | oracleCall => simp
    | verifyCall a b => simp
    | extractCall a b => simp
    | saveSelectors a => simp
    | saveContent => simp
  · rw [count_llm_records, List.length_eq_zero, List.filter_eq_nil_iff]
    intro e he
    cases e with
    | recordUrl b => exact absurd rfl (h _ he b)
    | fetchCall => simp
    | oracleCall => simp
    | verifyCall a b => simp
    | extractCall a b => simp
    | saveSelectors a => simp
    | saveContent => simp

/-- Every event emitted by `Pipeline._fetch` is a fetch call. -/
theorem pipeline_fetch_events (n : Nat) (fs : List FetchOutcome) :
    ∀ e ∈ (pipeline_fetch n fs).2.2, e = Event.fetchCall := by
  induction n generalizing fs with
  | zero => intro e he; simp [pipeline_fetch] at he
  | succ n ih =>
    intro e he
    cases fs with
    | nil =>
      simp only [pipeline_fetch, next_fetch] at he
      rcases List.mem_cons.mp he with h1 | h2
      · exact h1
      · exact ih [] e h2
    | cons o rest =>
      cases o with
      | ok r =>
        cases hh : r.html with
        | some html0 =>
          cases hb : r.is_blocked with
          | false =>
            simp only [pipeline_fetch, next_fetch, hh, hb] at he
            simpa using he
          | true =>
            simp only [pipeline_fetch, next_fetch, hh, hb] at he
            rcases List.mem_cons.mp he with h1 | h2
            · exact h1
            · exact ih rest e h2
        | none =>
          simp only [pipeline_fetch, next_fetch, hh] at he
          rcases List.mem_cons.mp he with h1 | h2
          · exact h1
          · exact ih rest e h2
      | bot e2 =>
        simp only [pipeline_fetch, next_fetch] at he
        rcases List.mem_cons.mp he with h1 | h2
        · exact h1
        · exact ih rest e h2
      | exn m =>
        simp only [pipeline_fetch, next_fetch] at he
        rcases List.mem_cons.mp he with h1 | h2
        · exact h1
        · exact ih rest e h2

/-- Every event emitted by the discovery loop is an oracle call. -/
theorem pipeline_discover_go_events (d : Nat → SelMap) (k n : Nat) :
    ∀ e ∈ (pipeline_discover_go d k n).2, e = Event.oracleCall := by
  induction n generalizing k with
  | zero => intro e he; simp [pipeline_discover_go] at he
  | succ n ih =>
    intro e he
    by_cases hd : (d k).isEmpty
    · simp only [pipeline_discover_go, hd, if_true] at he
      rcases List.mem_cons.mp he with h1 | h2
      · exact h1
      · exact ih (k + 1) e h2
    · simp only [pipeline_discover_go, hd, if_false, Bool.false_eq_true] at he
      simpa using he

/-- A non-empty discovery result implies the LLM flag is set and at least
one oracle call was made. -/
theorem pipeline_discover_go_used (d : Nat → SelMap) (k n : Nat)
    (h : (pipeline_discover_go d k n).1.1.isEmpty = false) :
    (pipeline_discover_go d k n).1.2 = true ∧
      Event.oracleCall ∈ (pipeline_discover_go d k n).2 := by
  induction n generalizing k with
  | zero => simp [pipeline_discover_go] at h
  | succ n ih =>
    by_cases hd : (d k).isEmpty
    · simp only [pipeline_discover_go, hd, if_true] at h ⊢
      obtain ⟨h1, h2⟩ := ih (k + 1) h
      exact ⟨h1, List.mem_cons_of_mem _ h2⟩
    · simp [pipeline_discover_go, hd]

/-- Models `_extract_with_cached_selectors` always records the URL exactly once,
with `used_llm=False`. -/
theorem extract_with_cached_spec (env : PipelineEnv)
    (fs : List FetchOutcome) (t : TrackerStats) (cs : SelMap) :
    (extract_with_cached env fs t cs).2.1 = t.record_url false ∧
    count_records (extract_with_cached env fs t cs).2.2 = 1 ∧
    count_llm_records (extract_with_cached env fs t cs).2.2 = 0 := by
  cases fs with
  | nil =>
    refine ⟨?_, ?_, ?_⟩ <;> trivial
  | cons o rest =>
    cases o with
    | ok r =>
      cases hh : r.html with
      | some html0 =>
        cases hb : r.is_blocked with
        | false =>
          simp only [extract_with_cached, next_fetch, hh, hb]
          by_cases hext :
              (env.extract (env.clean html0) cs).isEmpty
          · rw [if_pos hext]
            refine ⟨?_, ?_, ?_⟩ <;> trivial
          · rw [if_neg hext]
            refine ⟨?_, ?_, ?_⟩ <;> trivial
        | true =>
          simp only [extract_with_cached, next_fetch, hh, hb]
          refine ⟨?_, ?_, ?_⟩ <;> trivial
      | none =>
        simp only [extract_with_cached, next_fetch, hh]
        refine ⟨?_, ?_, ?_⟩ <;> trivial
    | bot e => refine ⟨?_, ?_, ?_⟩ <;> trivial
    | exn m => refine ⟨?_, ?_, ?_⟩ <;> trivial

/-- Branch behaviour of `_verify_and_extract_cached`: a `True` return records
the URL once with `used_llm=False`; a `False` return and a re-raised
`BotDetectionError` leave the tracker untouched and record nothing. -/
theorem verify_and_extract_cached_spec (env : PipelineEnv)
    (fs : List FetchOutcome) (t : TrackerStats) (cs : SelMap) :
    (match (verify_and_extract_cached env fs t cs) with
      | (.ret true, _, t1, tr1) =>
        t1 = t.record_url false ∧ count_records tr1 = 1 ∧
          count_llm_records tr1 = 0
      | (.ret false, _, t1, tr1) =>
        t1 = t ∧ count_records tr1 = 0 ∧ count_llm_records tr1 = 0
      | (.raise _, _, t1, tr1) =>
        t1 = t ∧ count_records tr1 = 0 ∧ count_llm_records tr1 = 0) := by
  cases fs with
  | nil => refine ⟨?_, ?_, ?_⟩ <;> trivial
  | cons o rest =>
    cases o with
    | ok r =>
      cases hh : r.html with
      | some html0 =>
        cases hb : r.is_blocked with
        | false =>
          simp only [verify_and_extract_cached, next_fetch, hh, hb]
          cases hv : SelectorVerifier.verify_selectors_with_html
              (env.select (env.clean html0)) cs with
          | error e2 => refine ⟨?_, ?_, ?_⟩ <;> trivial
          | ok vOpt =>
            cases vOpt with
            | some verified =>
              dsimp only
              by_cases hve : verified.isEmpty
              · rw [if_pos hve]
                refine ⟨?_, ?_, ?_⟩ <;> trivial
              · rw [if_neg hve]
                by_cases hext :
                    (env.extract (env.clean html0) verified).isEmpty
                · rw [if_pos hext]
                  refine ⟨?_, ?_, ?_⟩ <;> trivial
                · rw [if_neg hext]
                  refine ⟨?_, ?_, ?_⟩ <;> trivial
            | none => refine ⟨?_, ?_, ?_⟩ <;> trivial
        | true =>
          simp only [verify_and_extract_cached, next_fetch, hh, hb]
          refine ⟨?_, ?_, ?_⟩ <;> trivial
      | none =>
        simp only [verify_and_extract_cached, next_fetch, hh]
        refine ⟨?_, ?_, ?_⟩ <;> trivial
    | bot e => refine ⟨?_, ?_, ?_⟩ <;> trivial
    | exn m => refine ⟨?_, ?_, ?_⟩ <;> trivial

/-- Branch behaviour of `_cached_selectors`: same accounting as its two
workers; falling through to discovery touches nothing. -/
theorem cached_selectors_step_spec (env : PipelineEnv) (skip : Bool)
    (fs : List FetchOutcome) (t : TrackerStats) :
    (match (cached_selectors_step env skip fs t) with
      | (.ret true, _, t1, tr1) =>
        t1 = t.record_url false ∧ count_records tr1 = 1 ∧
          count_llm_records tr1 = 0
      | (.ret false, _, t1, tr1) =>
        t1 = t ∧ count_records tr1 = 0 ∧ count_llm_records tr1 = 0
      | (.raise _, _, t1, tr1) =>
        t1 = t ∧ count_records tr1 = 0 ∧ count_llm_records tr1 = 0) := by
  cases hc : env.cached with
  | none =>
    simp only [cached_selectors_step, hc]
    refine ⟨?_, ?_, ?_⟩ <;> trivial
  | some cs =>
    simp only [cached_selectors_step, hc]
    by_cases hempty : cs.isEmpty
    · rw [if_pos hempty]
      refine ⟨?_, ?_, ?_⟩ <;> trivial
    · rw [if_neg hempty]
      by_cases hskip : skip
      · rw [if_pos hskip]
        have hs := extract_with_cached_spec env fs t cs
        exact hs
      · rw [if_neg hskip]
        exact verify_and_extract_cached_spec env fs t cs

/-- The verification step emits no record events. -/
theorem pipeline_verify_no_records (env : PipelineEnv) (html : String)
    (sels : SelMap) (skip : Bool) :
    ∀ e ∈ (pipeline_verify env html sels skip).2, ∀ b : Bool,
      e ≠ Event.recordUrl b := by
  intro e he b
  unfold pipeline_verify at he
  by_cases hskip : skip
  · rw [if_pos hskip] at he
    simp at he
  · rw [if_neg hskip] at he
    cases hv : SelectorVerifier.verify (env.select html) sels with
    | error e2 =>
      rw [hv] at he
      dsimp only at he
      simp only [List.mem_singleton] at he
      rw [he]
      simp
    | ok r =>
      rw [hv] at he
      dsimp only at he
      by_cases hs : r.success
      · rw [if_pos hs] at he
        simp only [List.mem_singleton] at he
        rw [he]
        simp
      · rw [if_neg hs] at he
        simp only [List.mem_singleton] at he
        rw [he]
        simp

/-- Accounting along the main discovery path: a run that does not return
success (soft failure or a propagated verifier exception) leaves the tracker
untouched and records nothing; a successful run records the URL exactly
once, with the LLM counted exactly when discovery used it — in which case
the oracle really was called. -/
theorem main_path_spec (env : PipelineEnv) (skip : Bool) (mf md : Nat)
    (fs1 : List FetchOutcome) (t1 : TrackerStats) :
    ((main_path env skip mf md fs1 t1).result ≠ .ok true ∧
      (main_path env skip mf md fs1 t1).tracker = t1 ∧
      count_records (main_path env skip mf md fs1 t1).trace = 0 ∧
      count_llm_records (main_path env skip mf md fs1 t1).trace = 0) ∨
    (∃ used : Bool,
      (main_path env skip mf md fs1 t1).result = .ok true ∧
      (main_path env skip mf md fs1 t1).tracker = t1.record_url used ∧
      count_records (main_path env skip mf md fs1 t1).trace = 1 ∧
      count_llm_records (main_path env skip mf md fs1 t1).trace =
        (if used then 1 else 0) ∧
      (used = true →
        Event.oracleCall ∈ (main_path env skip mf md fs1 t1).trace)) := by
  have hf2 := counts_eq_zero (pipeline_fetch mf fs1).2.2 (fun e he b => by
    rw [pipeline_fetch_events mf fs1 e he]
    simp)
  unfold main_path
  rcases hpf : pipeline_fetch mf fs1 with ⟨ores, fs2, tr2⟩
  rw [hpf] at hf2
  cases ores with
  | none =>
    left
    exact ⟨by simp, rfl, hf2.1, hf2.2⟩
  | some pr =>
    rcases pr with ⟨r, h⟩
    dsimp only
    by_cases hch : (env.clean h).isEmpty
    · left
      rw [if_pos hch]
      exact ⟨by simp, rfl, hf2.1, hf2.2⟩
    · rw [if_neg hch]
      rcases hpd : pipeline_discover env.discover md with ⟨sp, tr3⟩
      rcases sp with ⟨sels, used⟩
      have hpd2 : pipeline_discover_go env.discover 1 md =
          ((sels, used), tr3) := hpd
      have hd3 := counts_eq_zero tr3 (fun e he b => by
        have h4 := pipeline_discover_go_events env.discover 1 md e (by
          rw [hpd2]
          exact he)
        rw [h4]
        simp)
      dsimp only
      by_cases hsels : sels.isEmpty
      · left
        rw [if_pos hsels]
        refine ⟨by simp, rfl, ?_, ?_⟩
        · rw [count_records_append, hf2.1, hd3.1]
        · rw [count_llm_records_append, hf2.2, hd3.2]
      · rw [if_neg hsels]
        rcases hpv : pipeline_verify env (env.clean h) sels skip
          with ⟨vOpt, tr4⟩
        have hv4 := counts_eq_zero tr4 (fun e he b => by
          have h5 := pipeline_verify_no_records env (env.clean h) sels skip e
            (by rw [hpv]; exact he) b
          exact h5)
        cases vOpt with
        | error e2 =>
          left
          refine ⟨by simp, rfl, ?_, ?_⟩
          · rw [count_records_append, count_records_append, hf2.1, hd3.1,
              hv4.1]
          · rw [count_llm_records_append, count_llm_records_append, hf2.2,
              hd3.2, hv4.2]
        | ok vOpt2 =>
          cases vOpt2 with
          | none =>
            left
            refine ⟨by simp, rfl, ?_, ?_⟩
            · rw [count_records_append, count_records_append, hf2.1, hd3.1,
                hv4.1]
            · rw [count_llm_records_append, count_llm_records_append, hf2.2,
                hd3.2, hv4.2]
          | some v =>
            dsimp only
            by_cases hve : v.isEmpty
            · left
              rw [if_pos hve]
              refine ⟨by simp, rfl, ?_, ?_⟩
              · rw [count_records_append, count_records_append, hf2.1,
                  hd3.1, hv4.1]
              · rw [count_llm_records_append, count_llm_records_append,
                  hf2.2, hd3.2, hv4.2]
            · rw [if_neg hve]
              have hused := pipeline_discover_go_used env.discover 1 md (by
                rw [hpd2]
                rw [Bool.not_eq_true] at hsels
                exact hsels)
              rw [hpd2] at hused
              right
              refine ⟨used, rfl, rfl, ?_, ?_, ?_⟩
              · rw [count_records_append, count_records_append,
                  count_records_append, count_records_append,
                  count_records_append, hf2.1, hd3.1, hv4.1]
                have h6 : count_records [Event.extractCall (env.clean h) v,
                    Event.saveSelectors v] = 0 := rfl
                have h7 : count_records (if (env.extract (env.clean h) v).isEmpty
                    then [] else [Event.saveContent]) = 0 := by
                  by_cases hext : (env.extract (env.clean h) v).isEmpty
                  · rw [if_pos hext]; rfl
                  · rw [if_neg hext]; rfl
                rw [h6, h7]
                rfl
              · rw [count_llm_records_append, count_llm_records_append,
                  count_llm_records_append, count_llm_records_append,
                  count_llm_records_append, hf2.2, hd3.2, hv4.2]
                have h6 : count_llm_records [Event.extractCall (env.clean h) v,
                    Event.saveSelectors v] = 0 := rfl
                have h7 : count_llm_records
                    (if (env.extract (env.clean h) v).isEmpty
                    then [] else [Event.saveContent]) = 0 := by
                  by_cases hext : (env.extract (env.clean h) v).isEmpty
                  · rw [if_pos hext]; rfl
                  · rw [if_neg hext]; rfl
                rw [h6, h7]
                cases used with
                | false => rfl
                | true => rfl
              · intro hu
                have := hused.2
                simp only [List.mem_append]
                exact Or.inl (Or.inl (Or.inl (Or.inl (Or.inr this))))

/-- C3 (amended): `record_url` runs exactly once per `process_url` call that
returns success and never on a failed or aborted run, so `url_count`
advances by one exactly for successful URLs; `llm_calls` advances exactly
with the `used_llm=True` records, and such a record implies the oracle was
actually called during that (successful) run — cached paths always record
`used_llm=False`. -/
theorem c3_usage_accounting (env : PipelineEnv) (force skip : Bool)
    (mf md : Nat) (t0 : TrackerStats) :
    count_records (process_url env force skip mf md t0).trace =
      (if (process_url env force skip mf md t0).result = .ok true
        then 1 else 0) ∧
    (process_url env force skip mf md t0).tracker.url_count =
      t0.url_count +
        count_records (process_url env force skip mf md t0).trace ∧
    (process_url env force skip mf md t0).tracker.llm_calls =
      t0.llm_calls +
        count_llm_records (process_url env force skip mf md t0).trace ∧
    (0 < count_llm_records (process_url env force skip mf md t0).trace →
      Event.oracleCall ∈ (process_url env force skip mf md t0).trace ∧
      (process_url env force skip mf md t0).result = .ok true) := by
  by_cases hforce : force
  · have hout : process_url env force skip mf md t0 =
        ⟨(main_path env skip mf md env.fetches t0).result,
          (main_path env skip mf md env.fetches t0).tracker,
          [] ++ (main_path env skip mf md env.fetches t0).trace⟩ := by
      unfold process_url
      rw [if_pos hforce]
    rw [hout]
    rcases main_path_spec env skip mf md env.fetches t0 with
      ⟨h1, h2, h3, h4⟩ | ⟨used, h1, h2, h3, h4, h5⟩
    · refine ⟨?_, ?_, ?_, ?_⟩
      · simp [h1, h3]
      · simp [h2, h3]
      · simp [h2, h4]
      · intro hpos
        simp only [List.nil_append] at hpos
        rw [h4] at hpos
        omega
    · refine ⟨?_, ?_, ?_, ?_⟩
      · simp [h1, h3]
      · simp [h2, h3, TrackerStats.record_url]
      · simp [h2, h4, TrackerStats.record_url]
      · intro hpos
        simp only [List.nil_append] at hpos
        rw [h4] at hpos
        have hu : used = true := by
          cases used
          · simp at hpos
          · rfl
        refine ⟨?_, by simp [h1]⟩
        simp only [List.nil_append]
        exact h5 hu
  · have hc := cached_selectors_step_spec env skip env.fetches t0
    rcases hstep : cached_selectors_step env skip env.fetches t0 with
      ⟨c, fs1, t1, tr1⟩
    rw [hstep] at hc
    cases c with
    | raise e =>
      obtain ⟨hA, hB, hC⟩ := hc
      have hout : process_url env force skip mf md t0 =
          ⟨.error (.bot e), t1, tr1⟩ := by
        unfold process_url
        rw [if_neg hforce, hstep]
      rw [hout]
      refine ⟨?_, ?_, ?_, ?_⟩
      · simp [hB]
      · simp [hA, hB]
      · simp [hA, hC]
      · intro hpos
        simp only at hpos
        rw [hC] at hpos
        omega
    | ret b =>
      cases b with
      | true =>
        obtain ⟨hA, hB, hC⟩ := hc
        have hout : process_url env force skip mf md t0 =
            ⟨.ok true, t1, tr1⟩ := by
          unfold process_url
          rw [if_neg hforce, hstep]
        rw [hout]
        refine ⟨?_, ?_, ?_, ?_⟩
        · simp [hB]
        · simp [hA, hB, TrackerStats.record_url]
        · simp [hA, hC, TrackerStats.record_url]
        · intro hpos
          simp only at hpos
          rw [hC] at hpos
          omega
      | false =>
        obtain ⟨hA, hB, hC⟩ := hc
        have hout : process_url env force skip mf md t0 =
            ⟨(main_path env skip mf md fs1 t1).result,
              (main_path env skip mf md fs1 t1).tracker,
              tr1 ++ (main_path env skip mf md fs1 t1).trace⟩ := by
          unfold process_url
          rw [if_neg hforce, hstep]
        rw [hout]
        rcases main_path_spec env skip mf md fs1 t1 with
          ⟨h1, h2, h3, h4⟩ | ⟨used, h1, h2, h3, h4, h5⟩
        · refine ⟨?_, ?_, ?_, ?_⟩
          · simp [count_records_append, hB, h3, h1]
          · rw [count_records_append, hB, h3, h2, hA]
            simp
          · rw [count_llm_records_append, hC, h4, h2, hA]
            simp
          · intro hpos
            simp only [count_llm_records_append, hC, h4] at hpos
            omega
        · refine ⟨?_, ?_, ?_, ?_⟩
          · rw [count_records_append, hB, h3, h1]
            simp
          · rw [count_records_append, hB, h3, h2, hA]
            simp [TrackerStats.record_url]
          · rw [count_llm_records_append, hC, h4, h2, hA]
            simp [TrackerStats.record_url]
          · intro hpos
            simp only [count_llm_records_append, hC, h4] at hpos
            have hu : used = true := by
              cases used
              · simp at hpos
              · rfl
            refine ⟨?_, by simp [h1]⟩
            simp only [List.mem_append]
            exact Or.inr (h5 hu)

/-- Witness for C3 at the concrete feed run: the LLM record is present, so
the oracle-call implication of the accounting theorem fires. -/
theorem c3_usage_accounting_witness :
    0 < count_llm_records (process_url envC1 false false 2 3 ⟨0, 0⟩).trace ∧
    (Event.oracleCall ∈ (process_url envC1 false false 2 3 ⟨0, 0⟩).trace ∧
      (process_url envC1 false false 2 3 ⟨0, 0⟩).result = .ok true) :=
  ⟨by decide,
    (c3_usage_accounting envC1 false false 2 3 ⟨0, 0⟩).2.2.2 (by decide)⟩

/-- In `_verify_and_extract_cached`, any extraction is performed with the
verified subset of the cached selectors, immediately after a successful
verification of the cached selectors against the freshly fetched and cleaned
HTML (in particular the verifier returned normally, raising no pydantic
error). -/
theorem verify_and_extract_cached_extraction (env : PipelineEnv)
    (fetches : List FetchOutcome) (t : TrackerStats) (cs : SelMap)
    (h0 : String) (s0 : SelMap)
    (hmem : Event.extractCall h0 s0 ∈
      (verify_and_extract_cached env fetches t cs).2.2.2) :
    ∃ rest rV, (verify_and_extract_cached env fetches t cs).2.2.2 =
        [Event.fetchCall, Event.verifyCall h0 cs,
          Event.extractCall h0 s0] ++ rest ∧
      SelectorVerifier.verify (env.select h0) cs = .ok rV ∧
      rV.success = true ∧
      s0 = SelectorVerifier.filter_verified cs rV := by
  cases fetches with
  | nil => simp [verify_and_extract_cached, next_fetch] at hmem
  | cons o rest2 =>
    cases o with
    | bot e => simp [verify_and_extract_cached, next_fetch] at hmem
    | exn m => simp [verify_and_extract_cached, next_fetch] at hmem
    | ok r =>
      cases hh : r.html with
      | none =>
        simp [verify_and_extract_cached, next_fetch, hh] at hmem
      | some html0 =>
        cases hb : r.is_blocked with
        | true =>
          simp [verify_and_extract_cached, next_fetch, hh, hb] at hmem
        | false =>
          cases hv : SelectorVerifier.verify_selectors_with_html
              (env.select (env.clean html0)) cs with
          | error e2 =>
            have htr : (verify_and_extract_cached env
                (.ok r :: rest2) t cs).2.2.2 =
                [Event.fetchCall, Event.verifyCall (env.clean html0) cs,
                  Event.recordUrl false] := by
              simp only [verify_and_extract_cached, next_fetch, hh, hb, hv]
            rw [htr] at hmem
            simp at hmem
          | ok vOpt =>
            cases vOpt with
            | none =>
              have htr : (verify_and_extract_cached env
                  (.ok r :: rest2) t cs).2.2.2 =
                  [Event.fetchCall,
                    Event.verifyCall (env.clean html0) cs] := by
                simp only [verify_and_extract_cached, next_fetch, hh, hb, hv]
              rw [htr] at hmem
              simp at hmem
            | some verified =>
              cases hve : verified.isEmpty with
              | true =>
                have htr : (verify_and_extract_cached env
                    (.ok r :: rest2) t cs).2.2.2 =
                    [Event.fetchCall,
                      Event.verifyCall (env.clean html0) cs] := by
                  simp only [verify_and_extract_cached, next_fetch, hh, hb,
                    hv, hve, if_true]
                rw [htr] at hmem
                simp at hmem
              | false =>
                have hvv : ∃ rV, SelectorVerifier.verify
                      (env.select (env.clean html0)) cs = .ok rV ∧
                    rV.success = true ∧
                    verified = SelectorVerifier.filter_verified cs rV := by
                  unfold SelectorVerifier.verify_selectors_with_html at hv
                  cases hV : SelectorVerifier.verify
                      (env.select (env.clean html0)) cs with
                  | error e3 => rw [hV] at hv; exact absurd hv (by simp)
                  | ok rV =>
                    rw [hV] at hv
                    dsimp only at hv
                    by_cases hs : rV.success = true
                    · rw [if_pos hs] at hv
                      refine ⟨rV, rfl, hs, ?_⟩
                      have := Option.some.inj (Except.ok.inj hv)
                      exact this.symm
                    · rw [if_neg hs] at hv
                      exact absurd hv (by simp)
                obtain ⟨rV, hV, hVs, hVf⟩ := hvv
                cases hext : (env.extract (env.clean html0) verified).isEmpty
                  with
                | true =>
                  have htr : (verify_and_extract_cached env
                      (.ok r :: rest2) t cs).2.2.2 =
                      [Event.fetchCall,
                        Event.verifyCall (env.clean html0) cs,
                        Event.extractCall (env.clean html0) verified,
                        Event.recordUrl false] := by
                    simp only [verify_and_extract_cached, next_fetch, hh, hb,
                      hv, hve, hext, Bool.false_eq_true, if_false, if_true]
                    simp
                  rw [htr] at hmem ⊢
                  have hpair : h0 = env.clean html0 ∧ s0 = verified := by
                    simpa using hmem
                  obtain ⟨he1, he2⟩ := hpair
                  subst he1
                  subst he2
                  exact ⟨[Event.recordUrl false], rV, by simp, hV, hVs, hVf⟩
                | false =>
                  have htr : (verify_and_extract_cached env
                      (.ok r :: rest2) t cs).2.2.2 =
                      [Event.fetchCall,
                        Event.verifyCall (env.clean html0) cs,
                        Event.extractCall (env.clean html0) verified,
                        Event.saveContent, Event.recordUrl false] := by
                    simp only [verify_and_extract_cached, next_fetch, hh, hb,
                      hv, hve, hext, Bool.false_eq_true, if_false]
                    simp
                  rw [htr] at hmem ⊢
                  have hpair : h0 = env.clean html0 ∧ s0 = verified := by
                    simpa using hmem
                  obtain ⟨he1, he2⟩ := hpair
                  subst he1
                  subst he2
                  exact ⟨[Event.saveContent, Event.recordUrl false], rV,
                    by simp, hV, hVs, hVf⟩

/-- C2 (amended): when force re-discovery and skip-verification are both off,
any extraction performed by the cached-selector path uses exactly the
verified subset of the domain's cached selectors, and happens only after a
successful re-verification of those cached selectors against the freshly
fetched (and cleaned) HTML, recorded earlier in the same trace. -/
theorem c2_cached_extraction_reverified (env : PipelineEnv)
    (fetches : List FetchOutcome) (t : TrackerStats)
    (h0 : String) (s0 : SelMap)
    (hmem : Event.extractCall h0 s0 ∈
      (cached_selectors_step env false fetches t).2.2.2) :
    ∃ cs rest rV, env.cached = some cs ∧
      (cached_selectors_step env false fetches t).2.2.2 =
        [Event.fetchCall, Event.verifyCall h0 cs,
          Event.extractCall h0 s0] ++ rest ∧
      SelectorVerifier.verify (env.select h0) cs = .ok rV ∧
      rV.success = true ∧
      s0 = SelectorVerifier.filter_verified cs rV := by
  cases hc : env.cached with
  | none =>
    have htr : (cached_selectors_step env false fetches t).2.2.2 = [] := by
      simp only [cached_selectors_step, hc]
    rw [htr] at hmem
    simp at hmem
  | some cs =>
    cases hempty : cs.isEmpty with
    | true =>
      have htr : (cached_selectors_step env false fetches t).2.2.2 = [] := by
        simp only [cached_selectors_step, hc, hempty, if_true]
      rw [htr] at hmem
      simp at hmem
    | false =>
      have htr : (cached_selectors_step env false fetches t).2.2.2 =
          (verify_and_extract_cached env fetches t cs).2.2.2 := by
        simp only [cached_selectors_step, hc, hempty, Bool.false_eq_true,
          if_false]
      rw [htr] at hmem ⊢
      obtain ⟨rest, rV, hrest⟩ :=
        verify_and_extract_cached_extraction env fetches t cs h0 s0 hmem
      exact ⟨cs, rest, rV, rfl, hrest⟩

/-- Witness for C2 (amended) at a concrete cached run: the extraction event
occurs, and the theorem yields the preceding successful re-verification. -/
theorem c2_cached_extraction_reverified_witness :
    Event.extractCall articleDoc cachedSels ∈
      (cached_selectors_step envC2 false [articleFetch] ⟨0, 0⟩).2.2.2 ∧
    (∃ cs rest rV, envC2.cached = some cs ∧
      (cached_selectors_step envC2 false [articleFetch] ⟨0, 0⟩).2.2.2 =
        [Event.fetchCall, Event.verifyCall articleDoc cs,
          Event.extractCall articleDoc cachedSels] ++ rest ∧
      SelectorVerifier.verify (envC2.select articleDoc) cs = .ok rV ∧
      rV.success = true ∧
      cachedSels = SelectorVerifier.filter_verified cs rV) :=
  ⟨by decide,
    c2_cached_extraction_reverified envC2 [articleFetch] ⟨0, 0⟩
      articleDoc cachedSels (by decide)⟩

end Yosoi
